import Mathlib

/-!
# Session Announcement Protocol dissector (packet-sap.c)

A shallow embedding of `dissect_sap` and of the tables registered by
`proto_register_sap`, followed by theorems about them.

Conventions of the embedding

* `pd` is the memory the C pointer `pd` addresses, as a finite list of bytes:
  the captured frame followed by whatever lies behind it.  `dissect_sap` never
  compares an index with a length, so the model lets every index be read and
  records each index read in `reads`; an index past the end of the list reads
  as 0, which makes `strlen` total.
* `captured_len` is the length of the captured frame (the host's
  `pi.captured_len`); an index `i` lies inside the buffer when
  `i < captured_len`.
* `offset` is a C `int` holding a non-negative frame offset; it is a `Nat`, and
  arithmetic on it is exact (signed overflow is undefined in C and does not
  arise for frame offsets).  Expressions of type `guint32` are reduced modulo
  `2^32`.
* A tree item records the values of the `start` and `length` argument
  expressions in their own C type, before any conversion to the parameter type
  of the host's `proto_tree_add_*` functions.
-/

namespace Sap

/-! ## Constants (packet-sap.c, lines 48-107) -/

def UDP_PORT_SAP : Nat := 9875

def MCAST_SAP_VERSION_MASK : Nat := 0xE0
def MCAST_SAP_VERSION_SHIFT : Nat := 5
def MCAST_SAP_VER0 : Nat := 0
def MCAST_SAP_VER1PLUS : Nat := 1

def MCAST_SAP_AUTH_TYPE_MASK : Nat := 0x0F
def MCAST_SAP_AUTH_TYPE_PGP : Nat := 0
def MCAST_SAP_AUTH_TYPE_CMS : Nat := 1

def MCAST_SAP_BIT_A : Nat := 0x10
def MCAST_SAP_BIT_R : Nat := 0x08
def MCAST_SAP_BIT_T : Nat := 0x04
def MCAST_SAP_BIT_E : Nat := 0x02
def MCAST_SAP_BIT_C : Nat := 0x01

def MCAST_SAP_AUTH_BIT_P : Nat := 0x10

/-- Modelled from the spec: `sizeof(struct e_in6_addr)`; the structure is
declared in packet-ipv6.h, which is not among the sources.  The spec gives an
IPv6 originating source 16 bytes. -/
def sizeof_e_in6_addr : Nat := 16

/-- The size of a `guint32` in bytes. -/
def sizeof_guint32 : Nat := 4

/-! ## Memory and C library -/

/-- The byte `pd[i]`, an `u_char`. -/
def rd (pd : List Nat) (i : Nat) : Nat := pd.getD i 0 % 256

/-- The bytes `pd[off]`, ..., `pd[off+n-1]`. -/
def rd_bytes (pd : List Nat) (off n : Nat) : List Nat :=
  (List.range' off n).map (rd pd)

/-- Modelled from the spec: `pntohs`, a macro of the host's packet.h, which is
not among the sources.  The spec reads the two bytes as a big-endian 16-bit
value. -/
def pntohs (pd : List Nat) (off : Nat) : Nat := rd pd off * 256 + rd pd (off + 1)

/-- Modelled from the spec: `END_OF_FRAME`, a macro of the host's packet.h,
which is not among the sources: the number of bytes from `offset` to the end of
the captured buffer. -/
def END_OF_FRAME (captured_len offset : Nat) : Int := (captured_len : Int) - (offset : Int)

/-- The C library's `tolower` in the C locale. -/
def tolower (c : Nat) : Nat := if 65 ≤ c ∧ c ≤ 90 then c + 32 else c

/-- Number of bytes before the first NUL of a byte list. -/
def strlen_aux : List Nat → Nat
  | [] => 0
  | b :: bs => if b % 256 = 0 then 0 else strlen_aux bs + 1

/-- The C library's `strlen(pd+off)`: the distance from `off` to the first NUL
byte at or after `off`. -/
def strlen (pd : List Nat) (off : Nat) : Nat := strlen_aux (pd.drop off)

/-- The indices `strlen(pd+off)` reads: every byte of the string and its
terminating NUL. -/
def strlen_reads (pd : List Nat) (off : Nat) : List Nat :=
  List.range' off (strlen pd off + 1)

/-- The C library's `strncasecmp(pd+off, s2, n)`: compares at most `n`
characters without regard to case and stops at the first difference or at a
NUL; `s2` is a NUL-terminated string given by its characters. -/
def strncasecmp (pd : List Nat) (off : Nat) (s2 : List Nat) : Nat → Int
  | 0 => 0
  | n + 1 =>
    let c1 := tolower (rd pd off)
    let c2 := tolower (s2.headD 0)
    if c1 ≠ c2 then (c1 : Int) - (c2 : Int)
    else if c1 = 0 then 0
    else strncasecmp pd (off + 1) s2.tail n

/-- The indices `strncasecmp(pd+off, s2, n)` reads in `pd`. -/
def strncasecmp_reads (pd : List Nat) (off : Nat) (s2 : List Nat) : Nat → List Nat
  | 0 => []
  | n + 1 =>
    let c1 := tolower (rd pd off)
    let c2 := tolower (s2.headD 0)
    if c1 ≠ c2 then [off]
    else if c1 = 0 then [off]
    else off :: strncasecmp_reads pd (off + 1) s2.tail n

/-- The string literal `"v="`. -/
def str_v_eq : List Nat := [118, 61]

/-! ## Protocol tree -/

/-- The trees `dissect_sap` adds items to. -/
inductive Tree
  | tree | sap_tree | sap_flags_tree | sa_tree | saf_tree
  deriving DecidableEq, Repr

/-- The registered fields (lines 110-122). -/
inductive Field
  | proto_sap
  | hf_sap_flags | hf_sap_flags_v | hf_sap_flags_a | hf_sap_flags_r
  | hf_sap_flags_t | hf_sap_flags_e | hf_sap_flags_c
  | hf_auth_data | hf_auth_flags | hf_auth_flags_v | hf_auth_flags_p | hf_auth_flags_t
  deriving DecidableEq, Repr

/-- The format strings of `proto_tree_add_text`, each with its arguments. -/
inductive Text
  /-- "Authentication Length: %u" -/
  | auth_length (v : Nat)
  /-- "Message Identifier Hash: 0x%x" -/
  | msg_id_hash (v : Nat)
  /-- "Originating Source: %s", formatted by `ip6_to_str` or `ip_to_str` from
  the address bytes. -/
  | orig_source (ipv6 : Bool) (addr : List Nat)
  /-- "Authentication subheader: (%u byte%s)" -/
  | auth_subheader (n : Nat)
  /-- "Authentication data padding: (%u byte%s)" -/
  | auth_padding (n : Nat)
  /-- "Authentication data pad count: %u byte%s" -/
  | auth_pad_count (n : Nat)
  /-- "The rest of the packet is %s" -/
  | rest (mangle : String)
  /-- "Payload type: %s" -/
  | payload_type (s : List Nat)
  deriving DecidableEq, Repr

/-- One call of a `proto_tree_add_*` function. -/
inductive Item
  | item (t : Tree) (hf : Field) (start length : Int)
  | uint (t : Tree) (hf : Field) (start length : Int) (value : Nat)
  | boolean (t : Tree) (hf : Field) (start length : Int) (value : Nat)
  | text (t : Tree) (start length : Int) (txt : Text)
  deriving DecidableEq, Repr

/-- The tree an item is added to. -/
def Item.tree : Item → Tree
  | Item.item t _ _ _ => t
  | Item.uint t _ _ _ _ => t
  | Item.boolean t _ _ _ _ => t
  | Item.text t _ _ _ => t

/-- The registered field of an item, if it has one. -/
def Item.field : Item → Option Field
  | Item.item _ hf _ _ => some hf
  | Item.uint _ hf _ _ _ => some hf
  | Item.boolean _ hf _ _ _ => some hf
  | Item.text _ _ _ _ => none

/-- The `start` argument of an item. -/
def Item.start : Item → Int
  | Item.item _ _ s _ => s
  | Item.uint _ _ s _ _ => s
  | Item.boolean _ _ s _ _ => s
  | Item.text _ s _ _ => s

/-- The `length` argument of an item. -/
def Item.length : Item → Int
  | Item.item _ _ _ n => n
  | Item.uint _ _ _ n _ => n
  | Item.boolean _ _ _ n _ => n
  | Item.text _ _ n _ => n

/-- Whether an item reports the authentication subheader: the authentication
data item (line 193) and every item added to its subtrees (lines 196-214). -/
def Item.is_auth (it : Item) : Bool :=
  decide (it.field = some Field.hf_auth_data) || decide (it.tree = Tree.sa_tree) ||
    decide (it.tree = Tree.saf_tree)

/-- Whether an item is the "Payload type" text (line 232). -/
def Item.is_payload_type : Item → Bool
  | Item.text _ _ _ (Text.payload_type _) => true
  | _ => false

/-- The part of `frame_data` that `dissect_sap` consults: the results of
`check_col(fd, COL_PROTOCOL)` and `check_col(fd, COL_INFO)`. -/
structure frame_data where
  col_protocol : Bool
  col_info : Bool
  deriving DecidableEq, Repr

/-! ## dissect_sap -/

/-- The local variables set in lines 141-147. -/
structure Locals where
  is_ipv6 : Nat
  is_del : Nat
  is_enc : Nat
  is_comp : Nat
  sap_version : Nat
  addr_len : Nat
  deriving DecidableEq, Repr

/-- Lines 141-147. -/
def sap_locals (pd : List Nat) (offset : Nat) : Locals :=
  let is_ipv6 := rd pd offset &&& MCAST_SAP_BIT_A
  let is_del := rd pd offset &&& MCAST_SAP_BIT_T
  let is_enc := rd pd offset &&& MCAST_SAP_BIT_E
  let is_comp := rd pd offset &&& MCAST_SAP_BIT_C
  let sap_version := (rd pd offset &&& MCAST_SAP_VERSION_MASK) >>> MCAST_SAP_VERSION_SHIFT
  let addr_len := if is_ipv6 ≠ 0 then sizeof_e_in6_addr else 4
  ⟨is_ipv6, is_del, is_enc, is_comp, sap_version, addr_len⟩

/-- The indices read by lines 141-146, one per statement. -/
def sap_locals_reads (offset : Nat) : List Nat :=
  [offset, offset, offset, offset, offset]

/-- The state a stretch of `dissect_sap` leaves behind: the cursor, the items
added and the indices read, both in program order. -/
structure Step where
  offset : Nat
  items : List Item
  reads : List Nat
  deriving DecidableEq, Repr

/-- Lines 158-181: the protocol item, the flags byte, the authentication
length, the message identifier hash and the originating source.  Also returns
`auth_len`. -/
def sap_header (pd : List Nat) (offset captured_len : Nat) (l : Locals) : Step × Nat :=
  let o0 := offset
  let flags := rd pd o0
  let o1 := o0 + 1
  let auth_len := rd pd o1
  let o2 := o1 + 1
  let tmp1 := pntohs pd o2
  let o3 := o2 + 2
  let o4 := o3 + l.addr_len
  (⟨o4,
    [ Item.item Tree.tree Field.proto_sap o0 (END_OF_FRAME captured_len o0),
      Item.uint Tree.sap_tree Field.hf_sap_flags o0 1 flags,
      Item.uint Tree.sap_flags_tree Field.hf_sap_flags_v o0 1 flags,
      Item.boolean Tree.sap_flags_tree Field.hf_sap_flags_a o0 1 flags,
      Item.boolean Tree.sap_flags_tree Field.hf_sap_flags_r o0 1 flags,
      Item.boolean Tree.sap_flags_tree Field.hf_sap_flags_t o0 1 flags,
      Item.boolean Tree.sap_flags_tree Field.hf_sap_flags_e o0 1 flags,
      Item.boolean Tree.sap_flags_tree Field.hf_sap_flags_c o0 1 flags,
      Item.text Tree.sap_tree o1 1 (Text.auth_length (rd pd o1)),
      Item.text Tree.sap_tree o2 2 (Text.msg_id_hash tmp1),
      Item.text Tree.sap_tree o3 l.addr_len
        (Text.orig_source (decide (l.is_ipv6 ≠ 0)) (rd_bytes pd o3 l.addr_len)) ],
    [o0, o0, o0, o0, o0, o0, o0, o1, o1, o2, o2 + 1] ++ List.range' o3 l.addr_len⟩,
   auth_len)

/-- The value of the `guint32` expression `auth_data_len-pad_len-1` (line 205). -/
def auth_body_len (auth_data_len pad_len : Nat) : Int :=
  ((auth_data_len : Int) - (pad_len : Int) - 1) % 4294967296

/-- The value of the `guint32` expression `offset+auth_data_len-pad_len`
(line 209). -/
def auth_pad_start (offset auth_data_len pad_len : Nat) : Int :=
  ((offset : Int) + (auth_data_len : Int) - (pad_len : Int)) % 4294967296

/-- Lines 184-218: the authentication subheader. -/
def sap_auth (pd : List Nat) (offset auth_len : Nat) : Step :=
  if auth_len > 0 then
    let auth_data_len := (auth_len * sizeof_guint32) % 4294967296
    let has_pad := rd pd offset &&& MCAST_SAP_AUTH_BIT_P
    let pad_len := if has_pad ≠ 0 then rd pd (offset + auth_data_len - 1) else 0
    let head : List Item :=
      [ Item.item Tree.sap_tree Field.hf_auth_data offset auth_data_len,
        Item.uint Tree.sa_tree Field.hf_auth_flags offset 1 (rd pd offset),
        Item.uint Tree.saf_tree Field.hf_auth_flags_v offset 1 (rd pd offset),
        Item.boolean Tree.saf_tree Field.hf_auth_flags_p offset 1 (rd pd offset),
        Item.uint Tree.saf_tree Field.hf_auth_flags_t offset 1 (rd pd offset),
        Item.text Tree.sa_tree ((offset : Int) + 1) (auth_body_len auth_data_len pad_len)
          (Text.auth_subheader ((auth_data_len + 4294967296 - 1) % 4294967296)) ]
    let pad : List Item :=
      if has_pad ≠ 0 then
        [ Item.text Tree.sa_tree (auth_pad_start offset auth_data_len pad_len) pad_len
            (Text.auth_padding pad_len),
          Item.text Tree.sa_tree (((offset : Int) + (auth_data_len : Int) - 1) % 4294967296) 1
            (Text.auth_pad_count pad_len) ]
      else []
    ⟨offset + auth_data_len, head ++ pad,
      [offset, offset, offset, offset, offset] ++
        (if has_pad ≠ 0 then [offset + auth_data_len - 1] else [])⟩
  else ⟨offset, [], []⟩

/-- Lines 219-239: the rest of the packet.  The second component is the offset
handed to `dissect_sdp`, if it is called.  The payload type is read three
times: by `strncasecmp`, by `strlen`, and by the "%s" of line 232, which like
`strlen` runs to the terminating NUL; line 234 then reads the byte behind
it. -/
def sap_payload (pd : List Nat) (offset captured_len : Nat) (l : Locals) : Step × Option Nat :=
  if l.is_enc ≠ 0 ∨ l.is_comp ≠ 0 then
    let mangle :=
      if l.is_enc ≠ 0 ∧ l.is_comp ≠ 0 then "compressed and encrypted"
      else if l.is_enc ≠ 0 then "encrypted"
      else "compressed"
    (⟨offset, [Item.text Tree.sap_tree offset (END_OF_FRAME captured_len offset) (Text.rest mangle)],
      []⟩, none)
  else if strncasecmp pd offset str_v_eq str_v_eq.length ≠ 0 then
    let pt_len := strlen pd offset % 4294967296
    let o1 := offset + pt_len
    let o2 := if rd pd o1 = 0 then o1 + 1 else o1
    (⟨o2, [Item.text Tree.sap_tree offset pt_len (Text.payload_type (rd_bytes pd offset (strlen pd offset)))],
      strncasecmp_reads pd offset str_v_eq str_v_eq.length ++ strlen_reads pd offset ++
        strlen_reads pd offset ++ [o1]⟩, some o2)
  else
    (⟨offset, [], strncasecmp_reads pd offset str_v_eq str_v_eq.length⟩, some offset)

/-- What one call of `dissect_sap` does. -/
structure Result where
  /-- The offset `old_dissect_data` is called with, when the protocol is
  displayed as data. -/
  data : Option Nat
  /-- The string put in the protocol column. -/
  col_protocol : Option String
  /-- The arguments of "%s (v%u)" put in the info column. -/
  col_info : Option (String × Nat)
  /-- The items added to the tree, in program order. -/
  items : List Item
  /-- The indices of `pd` read, in program order. -/
  reads : List Nat
  /-- The offset `dissect_sdp` is called with. -/
  sdp : Option Nat
  deriving DecidableEq, Repr

/-- The function `dissect_sap` (lines 129-243).  `display_as_data` tells
whether the host macro `OLD_CHECK_DISPLAY_AS_DATA` (not among the sources)
hands the packet to the data dissector and returns; `tree` tells whether the
`tree` argument is non-NULL. -/
def dissect_sap (display_as_data : Bool) (pd : List Nat) (offset captured_len : Nat)
    (fd : frame_data) (tree : Bool) : Result :=
  if display_as_data then ⟨some offset, none, none, [], [], none⟩
  else
    let l := sap_locals pd offset
    let col_protocol := if fd.col_protocol then some "SAP" else none
    let col_info :=
      if fd.col_info then
        some (if l.is_del ≠ 0 then "Deletion" else "Announcement", l.sap_version)
      else none
    if tree then
      let h := sap_header pd offset captured_len l
      let a := sap_auth pd h.1.offset h.2
      let p := sap_payload pd a.offset captured_len l
      ⟨none, col_protocol, col_info, h.1.items ++ a.items ++ p.1.items,
        sap_locals_reads offset ++ h.1.reads ++ a.reads ++ p.1.reads, p.2⟩
    else ⟨none, col_protocol, col_info, [], sap_locals_reads offset, none⟩

/-! ## proto_register_sap -/

/-- The table `mcast_sap_ver` (lines 54-57), without its terminating
`{ 0, NULL }` entry. -/
def mcast_sap_ver : List (Nat × String) :=
  [(MCAST_SAP_VER0, "SAPv0"), (MCAST_SAP_VER1PLUS, "SAPv1 or later")]

/-- The table `mcast_sap_auth_ver` (lines 84-86), without its terminating
entry. -/
def mcast_sap_auth_ver : List (Nat × String) :=
  [(1, "SAP authentication header v1")]

/-- The table `mcast_sap_auth_type` (lines 96-99), without its terminating
entry. -/
def mcast_sap_auth_type : List (Nat × String) :=
  [(MCAST_SAP_AUTH_TYPE_PGP, "PGP"), (MCAST_SAP_AUTH_TYPE_CMS, "CMS")]

/-- The bitmask each field is registered with (lines 248-308); the protocol
itself has none. -/
def hf_bitmask : Field → Nat
  | Field.proto_sap => 0x0
  | Field.hf_sap_flags => 0x0
  | Field.hf_sap_flags_v => MCAST_SAP_VERSION_MASK
  | Field.hf_sap_flags_a => MCAST_SAP_BIT_A
  | Field.hf_sap_flags_r => MCAST_SAP_BIT_R
  | Field.hf_sap_flags_t => MCAST_SAP_BIT_T
  | Field.hf_sap_flags_e => MCAST_SAP_BIT_E
  | Field.hf_sap_flags_c => MCAST_SAP_BIT_C
  | Field.hf_auth_data => 0x0
  | Field.hf_auth_flags => 0x0
  | Field.hf_auth_flags_v => MCAST_SAP_VERSION_MASK
  | Field.hf_auth_flags_p => MCAST_SAP_AUTH_BIT_P
  | Field.hf_auth_flags_t => MCAST_SAP_AUTH_TYPE_MASK

/-- The `value_string` table a field is registered with through `VALS`
(lines 248-308), if any. -/
def hf_strings : Field → Option (List (Nat × String))
  | Field.hf_sap_flags_v => some mcast_sap_ver
  | Field.hf_auth_flags_v => some mcast_sap_auth_ver
  | Field.hf_auth_flags_t => some mcast_sap_auth_type
  | _ => none

/-- Modelled from the spec: the host's lookup of a value in a `value_string`
table, which is not among the sources.  The spec maps the authentication type
as `{0: PGP, 1: CMS, other: Unknown}`: the string of the entry whose value is
equal, and nothing when no entry is. -/
def match_strval (val : Nat) : List (Nat × String) → Option String
  | [] => none
  | (v, s) :: vs => if v = val then some s else match_strval val vs

/-- The position of the lowest set bit among the low `fuel` bits of `mask`. -/
def lowest_bit : Nat → Nat → Nat
  | 0, _ => 0
  | fuel + 1, mask => if mask % 2 = 1 then 0 else lowest_bit fuel (mask / 2) + 1

/-- Modelled from the spec: what the host, whose proto.c is not among the
sources, shows for a field given the value `raw`: for a field registered with a
bitmask the bits under the mask, shifted right until the lowest bit of the mask
is bit 0, as the spec has it for the version, `(flags & 0xE0) >> 5`; for a
field without bitmask the value itself. -/
def field_value (hf : Field) (raw : Nat) : Nat :=
  if hf_bitmask hf = 0 then raw
  else (raw &&& hf_bitmask hf) >>> lowest_bit 32 (hf_bitmask hf)

/-- The label the host shows for a field registered with a `value_string`
table. -/
def field_label (hf : Field) (raw : Nat) : Option String :=
  (hf_strings hf).bind (match_strval (field_value hf raw))

/-- Whether an item is the "Authentication data pad count" text (line 212). -/
def Item.is_pad_count : Item → Bool
  | Item.text _ _ _ (Text.auth_pad_count _) => true
  | _ => false

/-- Whether an item is the "The rest of the packet is ..." text (line 224). -/
def Item.is_rest : Item → Bool
  | Item.text _ _ _ (Text.rest _) => true
  | _ => false

/-! ## Sample buffers -/

/-- An IPv4 announcement of version 1 with a padded authentication subheader of
two words whose last byte is 3, followed by an SDP description. -/
def buf_scenario_D : List Nat :=
  [0x20, 0x02, 0x12, 0x34, 192, 168, 1, 1, 0x10, 1, 2, 3, 4, 5, 6, 3, 118, 61, 48, 0]

/-- An IPv4 announcement of version 1 with a padded authentication subheader of
one word whose last byte, the pad count, is 9, followed by an SDP description. -/
def buf_pad_count_9 : List Nat :=
  [0x20, 0x01, 0x12, 0x34, 192, 168, 1, 1, 0x10, 1, 2, 9, 118, 61, 48, 0]

/-- An IPv4 announcement of version 1 with a padded authentication subheader of
one word whose last byte, the pad count, is 4, as large as the whole subheader,
followed by an SDP description. -/
def buf_pad_count_4 : List Nat :=
  [0x20, 0x01, 0x12, 0x34, 192, 168, 1, 1, 0x10, 1, 2, 4, 118, 61, 48, 0]

/-- Scenario A of the specification: an IPv4 announcement of version 0 without
authentication, followed by an SDP description. -/
def buf_scenario_A : List Nat :=
  [0x00, 0x00, 0x12, 0x34, 192, 168, 1, 1, 118, 61, 48, 0]

/-- Scenario C of the specification: an IPv4 announcement of version 0 with the
encrypted bit set and no authentication. -/
def buf_scenario_C : List Nat :=
  [0x02, 0x00, 0x12, 0x34, 192, 168, 1, 1, 0xAB, 0xCD, 0xEF, 0x01]

/-- An IPv4 announcement of version 0 without authentication whose SDP
description starts with an upper-case `V`: "V=0". -/
def buf_upper_V : List Nat :=
  [0x00, 0x00, 0x12, 0x34, 192, 168, 1, 1, 86, 61, 48, 0]

/-- An IPv4 announcement of version 0 without authentication that carries the
payload type "application/sdp" before its SDP description. -/
def buf_payload_type : List Nat :=
  [0x00, 0x00, 0x12, 0x34, 192, 168, 1, 1,
   97, 112, 112, 108, 105, 99, 97, 116, 105, 111, 110, 47, 115, 100, 112, 0,
   118, 61, 48, 0]

/-- An IPv4 announcement of version 0 without authentication whose SDP
description starts with an upper-case `V` and ends with a NUL: "V=0\r\n". -/
def buf_upper_V_crlf : List Nat :=
  [0x00, 0x00, 0x12, 0x34, 10, 0, 0, 1, 86, 61, 48, 13, 10, 0]

/-- Memory holding a frame of 11 bytes, an IPv4 announcement of version 0
without authentication whose last three bytes are "abc", with no NUL from the
cursor 8 to the end of the frame; behind the frame lie the bytes "de" and a
NUL. -/
def buf_unterminated : List Nat :=
  [0x00, 0x00, 0x12, 0x34, 192, 168, 1, 1, 97, 98, 99, 100, 101, 0]

/-- An IPv4 announcement whose version field holds 2 (flags byte `0x40`),
without authentication, followed by an SDP description. -/
def buf_version_2 : List Nat :=
  [0x40, 0x00, 0x12, 0x34, 192, 168, 1, 1, 118, 61, 48, 0]

/-- Scenario A of the specification with the reserved bit (`0x08`) of the flags
byte set. -/
def buf_scenario_A_reserved : List Nat :=
  [0x08, 0x00, 0x12, 0x34, 192, 168, 1, 1, 118, 61, 48, 0]

/-! ## Auxiliary lemmas -/

theorem rd_lt (pd : List Nat) (i : Nat) : rd pd i < 256 := by
  unfold rd; omega

set_option maxRecDepth 100000 in
theorem byte_facts : ∀ f, f < 256 →
    ((f &&& 0xE0) >>> 5 = f / 32) ∧
    ((f &&& 0x10 ≠ 0) ↔ f.testBit 4 = true) ∧
    ((f &&& 0x04 ≠ 0) ↔ f.testBit 2 = true) ∧
    ((f &&& 0x02 ≠ 0) ↔ f.testBit 1 = true) ∧
    ((f &&& 0x01 ≠ 0) ↔ f.testBit 0 = true) := by
  decide

theorem sap_header_offset (pd : List Nat) (offset cl : Nat) (l : Locals) :
    (sap_header pd offset cl l).1.offset = offset + 4 + l.addr_len := by
  simp [sap_header]

theorem sap_header_auth_len (pd : List Nat) (offset cl : Nat) (l : Locals) :
    (sap_header pd offset cl l).2 = rd pd (offset + 1) := by
  simp [sap_header]

theorem sap_auth_offset (pd : List Nat) (c i : Nat) :
    (sap_auth pd c (rd pd i)).offset = c + 4 * rd pd i := by
  have h := rd_lt pd i
  unfold sap_auth sizeof_guint32
  split
  · simp only []
    omega
  · simp only []
    omega

theorem dissect_sap_items (pd : List Nat) (offset cl : Nat) (fd : frame_data) :
    (dissect_sap false pd offset cl fd true).items =
      (sap_header pd offset cl (sap_locals pd offset)).1.items ++
      (sap_auth pd (offset + 4 + (sap_locals pd offset).addr_len) (rd pd (offset + 1))).items ++
      (sap_payload pd (offset + 4 + (sap_locals pd offset).addr_len + 4 * rd pd (offset + 1)) cl
        (sap_locals pd offset)).1.items := by
  simp [dissect_sap, sap_header_offset, sap_header_auth_len, sap_auth_offset]

theorem dissect_sap_reads (pd : List Nat) (offset cl : Nat) (fd : frame_data) :
    (dissect_sap false pd offset cl fd true).reads =
      sap_locals_reads offset ++
      (sap_header pd offset cl (sap_locals pd offset)).1.reads ++
      (sap_auth pd (offset + 4 + (sap_locals pd offset).addr_len) (rd pd (offset + 1))).reads ++
      (sap_payload pd (offset + 4 + (sap_locals pd offset).addr_len + 4 * rd pd (offset + 1)) cl
        (sap_locals pd offset)).1.reads := by
  simp [dissect_sap, sap_header_offset, sap_header_auth_len, sap_auth_offset]

theorem dissect_sap_sdp (pd : List Nat) (offset cl : Nat) (fd : frame_data) :
    (dissect_sap false pd offset cl fd true).sdp =
      (sap_payload pd (offset + 4 + (sap_locals pd offset).addr_len + 4 * rd pd (offset + 1)) cl
        (sap_locals pd offset)).2 := by
  simp [dissect_sap, sap_header_offset, sap_header_auth_len, sap_auth_offset]


theorem is_ipv6_iff (pd : List Nat) (offset : Nat) :
    (sap_locals pd offset).is_ipv6 ≠ 0 ↔ (rd pd offset).testBit 4 = true :=
  (byte_facts (rd pd offset) (rd_lt pd offset)).2.1

theorem is_del_iff (pd : List Nat) (offset : Nat) :
    (sap_locals pd offset).is_del ≠ 0 ↔ (rd pd offset).testBit 2 = true :=
  (byte_facts (rd pd offset) (rd_lt pd offset)).2.2.1

theorem is_enc_iff (pd : List Nat) (offset : Nat) :
    (sap_locals pd offset).is_enc ≠ 0 ↔ (rd pd offset).testBit 1 = true :=
  (byte_facts (rd pd offset) (rd_lt pd offset)).2.2.2.1

theorem is_comp_iff (pd : List Nat) (offset : Nat) :
    (sap_locals pd offset).is_comp ≠ 0 ↔ (rd pd offset).testBit 0 = true :=
  (byte_facts (rd pd offset) (rd_lt pd offset)).2.2.2.2

theorem sap_version_eq (pd : List Nat) (offset : Nat) :
    (sap_locals pd offset).sap_version = rd pd offset / 32 :=
  (byte_facts (rd pd offset) (rd_lt pd offset)).1

theorem addr_len_eq (pd : List Nat) (offset : Nat) :
    (sap_locals pd offset).addr_len = if (rd pd offset).testBit 4 = true then 16 else 4 := by
  have h := is_ipv6_iff pd offset
  show (if (sap_locals pd offset).is_ipv6 ≠ 0 then sizeof_e_in6_addr else 4) = _
  by_cases h4 : (rd pd offset).testBit 4 = true
  · rw [if_pos (h.mpr h4), if_pos h4]; rfl
  · rw [if_neg (fun x => h4 (h.mp x)), if_neg h4]

theorem decide_is_ipv6 (pd : List Nat) (offset : Nat) :
    decide ((sap_locals pd offset).is_ipv6 ≠ 0) = (rd pd offset).testBit 4 := by
  have h := is_ipv6_iff pd offset
  by_cases h4 : (rd pd offset).testBit 4 = true
  · rw [h4]; exact decide_eq_true (h.mpr h4)
  · have h' : (rd pd offset).testBit 4 = false := by simpa using h4
    rw [h']; exact decide_eq_false (fun x => h4 (h.mp x))

theorem sap_payload_mangled (pd : List Nat) (c cl : Nat) (l : Locals)
    (h : l.is_enc ≠ 0 ∨ l.is_comp ≠ 0) :
    sap_payload pd c cl l =
      (⟨c, [Item.text Tree.sap_tree c (END_OF_FRAME cl c)
            (Text.rest (if l.is_enc ≠ 0 ∧ l.is_comp ≠ 0 then "compressed and encrypted"
              else if l.is_enc ≠ 0 then "encrypted" else "compressed"))], []⟩, none) := by
  unfold sap_payload
  rw [if_pos h]

theorem sap_payload_sdp (pd : List Nat) (c cl : Nat) (l : Locals)
    (h : ¬ (l.is_enc ≠ 0 ∨ l.is_comp ≠ 0))
    (hv : strncasecmp pd c str_v_eq str_v_eq.length = 0) :
    sap_payload pd c cl l = (⟨c, [], strncasecmp_reads pd c str_v_eq str_v_eq.length⟩, some c) := by
  unfold sap_payload
  rw [if_neg h, if_neg (fun x => x hv)]

theorem sap_payload_type (pd : List Nat) (c cl : Nat) (l : Locals)
    (h : ¬ (l.is_enc ≠ 0 ∨ l.is_comp ≠ 0))
    (hv : strncasecmp pd c str_v_eq str_v_eq.length ≠ 0) :
    sap_payload pd c cl l =
      (⟨if rd pd (c + strlen pd c % 4294967296) = 0 then c + strlen pd c % 4294967296 + 1
          else c + strlen pd c % 4294967296,
        [Item.text Tree.sap_tree c ((strlen pd c % 4294967296 : Nat) : Int)
          (Text.payload_type (rd_bytes pd c (strlen pd c)))],
        strncasecmp_reads pd c str_v_eq str_v_eq.length ++ strlen_reads pd c ++
          strlen_reads pd c ++ [c + strlen pd c % 4294967296]⟩,
       some (if rd pd (c + strlen pd c % 4294967296) = 0 then c + strlen pd c % 4294967296 + 1
          else c + strlen pd c % 4294967296)) := by
  unfold sap_payload
  rw [if_neg h, if_pos hv]

theorem sap_payload_sdp_none (pd : List Nat) (c cl : Nat) (l : Locals) :
    (sap_payload pd c cl l).2 = none ↔ (l.is_enc ≠ 0 ∨ l.is_comp ≠ 0) := by
  by_cases h : l.is_enc ≠ 0 ∨ l.is_comp ≠ 0
  · rw [sap_payload_mangled pd c cl l h]; exact iff_of_true rfl h
  · by_cases hv : strncasecmp pd c str_v_eq str_v_eq.length = 0
    · rw [sap_payload_sdp pd c cl l h hv]
      exact iff_of_false (fun x => Option.noConfusion x) h
    · rw [sap_payload_type pd c cl l h hv]
      exact iff_of_false (fun x => Option.noConfusion x) h

theorem dissect_sap_col_info (pd : List Nat) (offset cl : Nat) (cp tree : Bool) :
    (dissect_sap false pd offset cl ⟨cp, true⟩ tree).col_info =
      some (if (sap_locals pd offset).is_del ≠ 0 then "Deletion" else "Announcement",
        (sap_locals pd offset).sap_version) := by
  cases tree <;> simp [dissect_sap]

theorem orig_source_mem (pd : List Nat) (offset cl : Nat) (l : Locals) :
    Item.text Tree.sap_tree ((offset : Int) + 4) l.addr_len
      (Text.orig_source (decide (l.is_ipv6 ≠ 0)) (rd_bytes pd (offset + 4) l.addr_len)) ∈
      (sap_header pd offset cl l).1.items := by
  simp [sap_header]
  omega

/-- C1: for every flags byte (the byte at `offset`), `dissect_sap` derives the
version as `(flags & 0xE0) >> 5`, a value from 0 to 7; takes the address for
IPv6 exactly when bit 4 is set, the message for a deletion exactly when bit 2 is
set, the payload for encrypted exactly when bit 1 is set and for compressed
exactly when bit 0 is set.  The info column shows the message kind and the
version, the originating source is formatted by the family of bit 4, and the
SDP dissector is skipped exactly when bit 1 or bit 0 is set. -/
theorem C1_flags_byte_decode (pd : List Nat) (offset captured_len : Nat) (cp tree : Bool) :
    rd pd offset < 256 ∧
    (sap_locals pd offset).sap_version = (rd pd offset &&& 0xE0) >>> 5 ∧
    (sap_locals pd offset).sap_version = rd pd offset / 32 ∧
    (sap_locals pd offset).sap_version ≤ 7 ∧
    ((sap_locals pd offset).is_ipv6 ≠ 0 ↔ (rd pd offset).testBit 4 = true) ∧
    ((sap_locals pd offset).is_del ≠ 0 ↔ (rd pd offset).testBit 2 = true) ∧
    ((sap_locals pd offset).is_enc ≠ 0 ↔ (rd pd offset).testBit 1 = true) ∧
    ((sap_locals pd offset).is_comp ≠ 0 ↔ (rd pd offset).testBit 0 = true) ∧
    (dissect_sap false pd offset captured_len ⟨cp, true⟩ tree).col_info =
      some (if (rd pd offset).testBit 2 = true then "Deletion" else "Announcement",
            (rd pd offset &&& 0xE0) >>> 5) ∧
    (∃ len addr, Item.text Tree.sap_tree ((offset : Int) + 4) len
        (Text.orig_source ((rd pd offset).testBit 4) addr) ∈
      (dissect_sap false pd offset captured_len ⟨cp, true⟩ true).items) ∧
    ((dissect_sap false pd offset captured_len ⟨cp, true⟩ true).sdp = none ↔
      ((rd pd offset).testBit 1 = true ∨ (rd pd offset).testBit 0 = true)) := by
  have hlt := rd_lt pd offset
  refine ⟨hlt, rfl, sap_version_eq pd offset, ?_, is_ipv6_iff pd offset, is_del_iff pd offset,
    is_enc_iff pd offset, is_comp_iff pd offset, ?_, ?_, ?_⟩
  · rw [sap_version_eq]; omega
  · rw [dissect_sap_col_info]
    have hd := is_del_iff pd offset
    by_cases h2 : (rd pd offset).testBit 2 = true
    · rw [if_pos (hd.mpr h2), if_pos h2]; rfl
    · rw [if_neg (fun x => h2 (hd.mp x)), if_neg h2]; rfl
  · refine ⟨(sap_locals pd offset).addr_len,
      rd_bytes pd (offset + 4) (sap_locals pd offset).addr_len, ?_⟩
    rw [dissect_sap_items, ← decide_is_ipv6]
    exact List.mem_append_left _ (List.mem_append_left _ (orig_source_mem pd offset _ _))
  · rw [dissect_sap_sdp, sap_payload_sdp_none, is_enc_iff, is_comp_iff]

theorem sap_header_reads (pd : List Nat) (offset cl : Nat) (l : Locals) :
    (sap_header pd offset cl l).1.reads =
      [offset, offset, offset, offset, offset, offset, offset,
        offset + 1, offset + 1, offset + 2, offset + 3] ++ List.range' (offset + 4) l.addr_len := by
  simp [sap_header]

/-- C2: for every buffer, `addr_len` is 4 or 16 and is a function of bit 4 of
the flags byte alone (16 when it is set, 4 when it is clear); the originating
source item starts at `offset + 4` and is `addr_len` long, exactly the bytes
`offset + 4`, ..., `offset + 4 + addr_len - 1` are read for it, and the cursor
after it, where the authentication step starts, is `offset + 4 + addr_len`. -/
theorem C2_addr_len_and_cursor (pd : List Nat) (offset captured_len : Nat) (fd : frame_data) :
    ((sap_locals pd offset).addr_len = 4 ∨ (sap_locals pd offset).addr_len = 16) ∧
    ((sap_locals pd offset).addr_len = 16 ↔ (rd pd offset).testBit 4 = true) ∧
    (sap_locals pd offset).addr_len = (if (rd pd offset).testBit 4 = true then 16 else 4) ∧
    Item.text Tree.sap_tree ((offset : Int) + 4) ((sap_locals pd offset).addr_len : Int)
        (Text.orig_source ((rd pd offset).testBit 4)
          (rd_bytes pd (offset + 4) (sap_locals pd offset).addr_len)) ∈
      (dissect_sap false pd offset captured_len fd true).items ∧
    (sap_header pd offset captured_len (sap_locals pd offset)).1.reads =
      [offset, offset, offset, offset, offset, offset, offset,
        offset + 1, offset + 1, offset + 2, offset + 3] ++
        List.range' (offset + 4) (sap_locals pd offset).addr_len ∧
    (sap_header pd offset captured_len (sap_locals pd offset)).1.offset =
      offset + 4 + (sap_locals pd offset).addr_len ∧
    (dissect_sap false pd offset captured_len fd true).items =
      (sap_header pd offset captured_len (sap_locals pd offset)).1.items ++
      (sap_auth pd (offset + 4 + (sap_locals pd offset).addr_len) (rd pd (offset + 1))).items ++
      (sap_payload pd (offset + 4 + (sap_locals pd offset).addr_len + 4 * rd pd (offset + 1))
        captured_len (sap_locals pd offset)).1.items := by
  have ha := addr_len_eq pd offset
  refine ⟨?_, ?_, ha, ?_, sap_header_reads _ _ _ _, sap_header_offset _ _ _ _,
    dissect_sap_items _ _ _ _⟩
  · rw [ha]; split <;> simp
  · rw [ha]; split <;> simp_all
  · rw [dissect_sap_items, ← decide_is_ipv6]
    exact List.mem_append_left _ (List.mem_append_left _ (orig_source_mem pd offset _ _))

theorem has_pad_iff (pd : List Nat) (c : Nat) :
    rd pd c &&& MCAST_SAP_AUTH_BIT_P ≠ 0 ↔ (rd pd c).testBit 4 = true :=
  (byte_facts (rd pd c) (rd_lt pd c)).2.1

theorem auth_data_len_eq (n : Nat) (h : n < 256) :
    (n * sizeof_guint32) % 4294967296 = 4 * n := by
  unfold sizeof_guint32; omega

theorem sap_auth_zero (pd : List Nat) (c : Nat) : sap_auth pd c 0 = ⟨c, [], []⟩ := by
  simp [sap_auth]

theorem sap_auth_padded (pd : List Nat) (c n : Nat) (h0 : 0 < n) (h : n < 256)
    (hp : (rd pd c).testBit 4 = true) :
    sap_auth pd c n =
      ⟨c + 4 * n,
        [ Item.item Tree.sap_tree Field.hf_auth_data c ((4 * n : Nat) : Int),
          Item.uint Tree.sa_tree Field.hf_auth_flags c 1 (rd pd c),
          Item.uint Tree.saf_tree Field.hf_auth_flags_v c 1 (rd pd c),
          Item.boolean Tree.saf_tree Field.hf_auth_flags_p c 1 (rd pd c),
          Item.uint Tree.saf_tree Field.hf_auth_flags_t c 1 (rd pd c),
          Item.text Tree.sa_tree ((c : Int) + 1) (auth_body_len (4 * n) (rd pd (c + 4 * n - 1)))
            (Text.auth_subheader (4 * n - 1)),
          Item.text Tree.sa_tree (auth_pad_start c (4 * n) (rd pd (c + 4 * n - 1)))
            (rd pd (c + 4 * n - 1)) (Text.auth_padding (rd pd (c + 4 * n - 1))),
          Item.text Tree.sa_tree (((c : Int) + ((4 * n : Nat) : Int) - 1) % 4294967296) 1
            (Text.auth_pad_count (rd pd (c + 4 * n - 1))) ],
        [c, c, c, c, c, c + 4 * n - 1]⟩ := by
  have hp' := (has_pad_iff pd c).mpr hp
  have h1 : (4 * n + 4294967296 - 1) % 4294967296 = 4 * n - 1 := by omega
  unfold sap_auth
  rw [if_pos h0]
  simp only [auth_data_len_eq n h, if_pos hp', h1]
  rfl

theorem sap_auth_unpadded (pd : List Nat) (c n : Nat) (h0 : 0 < n) (h : n < 256)
    (hp : ¬ (rd pd c).testBit 4 = true) :
    sap_auth pd c n =
      ⟨c + 4 * n,
        [ Item.item Tree.sap_tree Field.hf_auth_data c ((4 * n : Nat) : Int),
          Item.uint Tree.sa_tree Field.hf_auth_flags c 1 (rd pd c),
          Item.uint Tree.saf_tree Field.hf_auth_flags_v c 1 (rd pd c),
          Item.boolean Tree.saf_tree Field.hf_auth_flags_p c 1 (rd pd c),
          Item.uint Tree.saf_tree Field.hf_auth_flags_t c 1 (rd pd c),
          Item.text Tree.sa_tree ((c : Int) + 1) (auth_body_len (4 * n) 0)
            (Text.auth_subheader (4 * n - 1)) ],
        [c, c, c, c, c]⟩ := by
  have hp' : ¬ (rd pd c &&& MCAST_SAP_AUTH_BIT_P ≠ 0) := fun x => hp ((has_pad_iff pd c).mp x)
  have h1 : (4 * n + 4294967296 - 1) % 4294967296 = 4 * n - 1 := by omega
  unfold sap_auth
  rw [if_pos h0]
  simp only [auth_data_len_eq n h, if_neg hp', h1]
  rfl

theorem auth_body_len_exact (d p : Nat) (h : p + 1 ≤ d) (hd : d < 4294967296) :
    auth_body_len d p = (d : Int) - (p : Int) - 1 := by
  unfold auth_body_len; omega

theorem auth_body_len_wrapped (d p : Nat) (h : d < p + 1) (hp : p < 256) :
    auth_body_len d p = (d : Int) - (p : Int) - 1 + 4294967296 := by
  unfold auth_body_len; omega


/-- C3, as stated, fails: in `buf_pad_count_4` the authentication length byte
is 1, so that `data_len = 4`, bit 4 of the authentication flags byte at 8 is set
and the pad count, the byte at `8 + 4 - 1`, is 4; `data_len - pad_len - 1` is
`4 - 4 - 1`, but the body item added at 9 has the length `4294967295`, and no
body item with the length `4 - 4 - 1` is among the items. -/
theorem C3_counterexample :
    0 < rd buf_pad_count_4 1 ∧ 4 * rd buf_pad_count_4 1 = 4 ∧
    (rd buf_pad_count_4 8).testBit 4 = true ∧ rd buf_pad_count_4 (8 + 4 - 1) = 4 ∧
    Item.text Tree.sa_tree 9 4294967295 (Text.auth_subheader 3) ∈
      (dissect_sap false buf_pad_count_4 0 16 ⟨true, true⟩ true).items ∧
    (4294967295 : Int) ≠ 4 - 4 - 1 ∧
    Item.text Tree.sa_tree 9 (4 - 4 - 1) (Text.auth_subheader 3) ∉
      (dissect_sap false buf_pad_count_4 0 16 ⟨true, true⟩ true).items ∧
    (dissect_sap false buf_pad_count_4 0 16 ⟨true, true⟩ true).items.filter
        (fun it => decide (it.tree = Tree.sa_tree ∧ it.start = 9)) =
      [Item.text Tree.sa_tree 9 4294967295 (Text.auth_subheader 3)] := by
  decide

/-- C3, amended: when the authentication length byte `n` is greater than 0, the
authentication data item at the cursor `b` after the originating source has
length `data_len = 4 * n`, and the body item starts at `b + 1`, one byte after
the authentication flags byte `pd[b]`.  When bit 4 of `pd[b]` is set, `pad_len`
is the byte `pd[b + data_len - 1]`, read for it, and the length of the body item
is `data_len - pad_len - 1` as long as `pad_len <= data_len - 1`, and that value
wrapped around in unsigned 32-bit arithmetic, `data_len - pad_len - 1 + 2^32`,
when `pad_len` is larger.  When bit 4 is clear the authentication step does not
read that byte, `pad_len` is 0 and the length is `data_len - 1`. -/
theorem C3_auth_body_length (pd : List Nat) (offset captured_len : Nat) (fd : frame_data)
    (h : 0 < rd pd (offset + 1)) :
    Item.item Tree.sap_tree Field.hf_auth_data
        ((offset + 4 + (sap_locals pd offset).addr_len : Nat) : Int)
        ((4 * rd pd (offset + 1) : Nat) : Int) ∈
      (dissect_sap false pd offset captured_len fd true).items ∧
    Item.text Tree.sa_tree (((offset + 4 + (sap_locals pd offset).addr_len : Nat) : Int) + 1)
        (if (rd pd (offset + 4 + (sap_locals pd offset).addr_len)).testBit 4 = true then
          (if rd pd (offset + 4 + (sap_locals pd offset).addr_len + 4 * rd pd (offset + 1) - 1)
              ≤ 4 * rd pd (offset + 1) - 1 then
            ((4 * rd pd (offset + 1) : Nat) : Int) -
              (rd pd (offset + 4 + (sap_locals pd offset).addr_len + 4 * rd pd (offset + 1) - 1)
                : Int) - 1
           else
            ((4 * rd pd (offset + 1) : Nat) : Int) -
              (rd pd (offset + 4 + (sap_locals pd offset).addr_len + 4 * rd pd (offset + 1) - 1)
                : Int) - 1 + 4294967296)
         else ((4 * rd pd (offset + 1) : Nat) : Int) - 1)
        (Text.auth_subheader (4 * rd pd (offset + 1) - 1)) ∈
      (dissect_sap false pd offset captured_len fd true).items ∧
    (sap_auth pd (offset + 4 + (sap_locals pd offset).addr_len) (rd pd (offset + 1))).reads =
      (if (rd pd (offset + 4 + (sap_locals pd offset).addr_len)).testBit 4 = true then
        [offset + 4 + (sap_locals pd offset).addr_len,
          offset + 4 + (sap_locals pd offset).addr_len,
          offset + 4 + (sap_locals pd offset).addr_len,
          offset + 4 + (sap_locals pd offset).addr_len,
          offset + 4 + (sap_locals pd offset).addr_len,
          offset + 4 + (sap_locals pd offset).addr_len + 4 * rd pd (offset + 1) - 1]
       else
        [offset + 4 + (sap_locals pd offset).addr_len,
          offset + 4 + (sap_locals pd offset).addr_len,
          offset + 4 + (sap_locals pd offset).addr_len,
          offset + 4 + (sap_locals pd offset).addr_len,
          offset + 4 + (sap_locals pd offset).addr_len]) := by
  have hn := rd_lt pd (offset + 1)
  have hq := rd_lt pd (offset + 4 + (sap_locals pd offset).addr_len + 4 * rd pd (offset + 1) - 1)
  refine ⟨?_, ?_, ?_⟩
  · rw [dissect_sap_items]
    apply List.mem_append_left
    apply List.mem_append_right
    by_cases hp : (rd pd (offset + 4 + (sap_locals pd offset).addr_len)).testBit 4 = true
    · rw [sap_auth_padded pd _ _ h hn hp]; simp
    · rw [sap_auth_unpadded pd _ _ h hn hp]; simp
  · rw [dissect_sap_items]
    apply List.mem_append_left
    apply List.mem_append_right
    by_cases hp : (rd pd (offset + 4 + (sap_locals pd offset).addr_len)).testBit 4 = true
    · rw [sap_auth_padded pd _ _ h hn hp, if_pos hp]
      by_cases hle : rd pd (offset + 4 + (sap_locals pd offset).addr_len +
          4 * rd pd (offset + 1) - 1) ≤ 4 * rd pd (offset + 1) - 1
      · rw [if_pos hle, auth_body_len_exact _ _ (by omega) (by omega)]
        simp
      · rw [if_neg hle, auth_body_len_wrapped _ _ (by omega) hq]
        simp
    · rw [sap_auth_unpadded pd _ _ h hn hp, if_neg hp]
      have : auth_body_len (4 * rd pd (offset + 1)) 0 = ((4 * rd pd (offset + 1) : Nat) : Int) - 1 := by
        unfold auth_body_len; omega
      rw [this]
      simp
  · by_cases hp : (rd pd (offset + 4 + (sap_locals pd offset).addr_len)).testBit 4 = true
    · rw [sap_auth_padded pd _ _ h hn hp, if_pos hp]
    · rw [sap_auth_unpadded pd _ _ h hn hp, if_neg hp]

theorem C3_auth_body_length_witness :
    0 < rd buf_scenario_D 1 ∧
    Item.text Tree.sa_tree 9 4 (Text.auth_subheader 7) ∈
      (dissect_sap false buf_scenario_D 0 20 ⟨true, true⟩ true).items :=
  ⟨by decide, (C3_auth_body_length buf_scenario_D 0 20 ⟨true, true⟩ (by decide)).2.1⟩

/-- C4, as stated, fails: the padded authentication subheader of
`buf_pad_count_9` has `data_len = 4` and `pad_len = 9`, so that
`data_len - pad_len - 1` is negative; `dissect_sap` reports nothing of the kind
and adds the body item with the wrapped length `4294967290`, the padding items,
and hands offset 12 to the SDP dissector. -/
theorem C4_counterexample :
    (4 : Int) - 9 - 1 < 0 ∧
    dissect_sap false buf_pad_count_9 0 16 ⟨true, true⟩ true =
      ⟨none, some "SAP", some ("Announcement", 1),
        [ Item.item Tree.tree Field.proto_sap 0 16,
          Item.uint Tree.sap_tree Field.hf_sap_flags 0 1 32,
          Item.uint Tree.sap_flags_tree Field.hf_sap_flags_v 0 1 32,
          Item.boolean Tree.sap_flags_tree Field.hf_sap_flags_a 0 1 32,
          Item.boolean Tree.sap_flags_tree Field.hf_sap_flags_r 0 1 32,
          Item.boolean Tree.sap_flags_tree Field.hf_sap_flags_t 0 1 32,
          Item.boolean Tree.sap_flags_tree Field.hf_sap_flags_e 0 1 32,
          Item.boolean Tree.sap_flags_tree Field.hf_sap_flags_c 0 1 32,
          Item.text Tree.sap_tree 1 1 (Text.auth_length 1),
          Item.text Tree.sap_tree 2 2 (Text.msg_id_hash 4660),
          Item.text Tree.sap_tree 4 4 (Text.orig_source false [192, 168, 1, 1]),
          Item.item Tree.sap_tree Field.hf_auth_data 8 4,
          Item.uint Tree.sa_tree Field.hf_auth_flags 8 1 16,
          Item.uint Tree.saf_tree Field.hf_auth_flags_v 8 1 16,
          Item.boolean Tree.saf_tree Field.hf_auth_flags_p 8 1 16,
          Item.uint Tree.saf_tree Field.hf_auth_flags_t 8 1 16,
          Item.text Tree.sa_tree 9 4294967290 (Text.auth_subheader 3),
          Item.text Tree.sa_tree 3 9 (Text.auth_padding 9),
          Item.text Tree.sa_tree 11 1 (Text.auth_pad_count 9) ],
        [0, 0, 0, 0, 0, 0, 0, 0, 0, 0, 0, 0, 1, 1, 2, 3, 4, 5, 6, 7, 8, 8, 8, 8, 8, 11, 12, 13],
        some 12⟩ := by
  decide

/-- C4, amended: when the authentication length byte `n` is greater than 0, bit
4 of the authentication flags byte `pd[b]` is set and the pad count
`pd[b + 4 * n - 1]` is so large that `4 * n - pad_len - 1` is negative,
`dissect_sap` reports no failure: it adds the body item at `b + 1` with the
length `4 * n - pad_len - 1 + 2^32`, the value wrapped around in unsigned 32-bit
arithmetic, advances the cursor by `4 * n` and goes on with the payload at
`b + 4 * n`. -/
theorem C4_pad_count_wraps (pd : List Nat) (offset captured_len : Nat) (fd : frame_data)
    (h : 0 < rd pd (offset + 1))
    (hp : (rd pd (offset + 4 + (sap_locals pd offset).addr_len)).testBit 4 = true)
    (hw : ((4 * rd pd (offset + 1) : Nat) : Int) -
        (rd pd (offset + 4 + (sap_locals pd offset).addr_len + 4 * rd pd (offset + 1) - 1) : Int)
        - 1 < 0) :
    Item.text Tree.sa_tree (((offset + 4 + (sap_locals pd offset).addr_len : Nat) : Int) + 1)
        (((4 * rd pd (offset + 1) : Nat) : Int) -
          (rd pd (offset + 4 + (sap_locals pd offset).addr_len + 4 * rd pd (offset + 1) - 1) : Int)
          - 1 + 4294967296)
        (Text.auth_subheader (4 * rd pd (offset + 1) - 1)) ∈
      (dissect_sap false pd offset captured_len fd true).items ∧
    (dissect_sap false pd offset captured_len fd true).data = none ∧
    (dissect_sap false pd offset captured_len fd true).items =
      (sap_header pd offset captured_len (sap_locals pd offset)).1.items ++
      (sap_auth pd (offset + 4 + (sap_locals pd offset).addr_len) (rd pd (offset + 1))).items ++
      (sap_payload pd (offset + 4 + (sap_locals pd offset).addr_len + 4 * rd pd (offset + 1))
        captured_len (sap_locals pd offset)).1.items ∧
    (dissect_sap false pd offset captured_len fd true).sdp =
      (sap_payload pd (offset + 4 + (sap_locals pd offset).addr_len + 4 * rd pd (offset + 1))
        captured_len (sap_locals pd offset)).2 := by
  have hn := rd_lt pd (offset + 1)
  have hq := rd_lt pd (offset + 4 + (sap_locals pd offset).addr_len + 4 * rd pd (offset + 1) - 1)
  refine ⟨?_, ?_, dissect_sap_items _ _ _ _, dissect_sap_sdp _ _ _ _⟩
  · rw [dissect_sap_items]
    apply List.mem_append_left
    apply List.mem_append_right
    rw [sap_auth_padded pd _ _ h hn hp, auth_body_len_wrapped _ _ (by omega) hq]
    simp
  · simp [dissect_sap]

theorem C4_pad_count_wraps_witness :
    0 < rd buf_pad_count_9 1 ∧ (rd buf_pad_count_9 8).testBit 4 = true ∧
    ((4 : Int) - 9 - 1 < 0) ∧
    Item.text Tree.sa_tree 9 4294967290 (Text.auth_subheader 3) ∈
      (dissect_sap false buf_pad_count_9 0 16 ⟨true, true⟩ true).items :=
  ⟨by decide, by decide, by decide,
    (C4_pad_count_wraps buf_pad_count_9 0 16 ⟨true, true⟩ (by decide) (by decide) (by decide)).1⟩

theorem sap_header_not_auth (pd : List Nat) (offset cl : Nat) (l : Locals) :
    ∀ it ∈ (sap_header pd offset cl l).1.items, it.is_auth = false := by
  intro it hit
  simp only [sap_header, List.mem_cons, List.mem_singleton, List.not_mem_nil, or_false] at hit
  rcases hit with h | h | h | h | h | h | h | h | h | h | h <;> subst h <;> rfl

theorem sap_payload_not_auth (pd : List Nat) (c cl : Nat) (l : Locals) :
    ∀ it ∈ (sap_payload pd c cl l).1.items, it.is_auth = false := by
  intro it hit
  by_cases h : l.is_enc ≠ 0 ∨ l.is_comp ≠ 0
  · rw [sap_payload_mangled pd c cl l h] at hit
    simp only [List.mem_singleton] at hit
    subst hit; rfl
  · by_cases hv : strncasecmp pd c str_v_eq str_v_eq.length = 0
    · rw [sap_payload_sdp pd c cl l h hv] at hit
      simp at hit
    · rw [sap_payload_type pd c cl l h hv] at hit
      simp only [List.mem_singleton] at hit
      subst hit; rfl

/-- C5: when the authentication length byte is 0, the authentication step adds
no item, reads no byte and leaves the cursor where the originating source ended,
at `offset + 4 + addr_len`: the items of `dissect_sap` are those of the header
followed by those of the payload step run at that cursor, none of them reports
an authentication subheader, and the indices read are those of the header and of
the payload step only. -/
theorem C5_no_auth_when_zero (pd : List Nat) (offset captured_len : Nat) (fd : frame_data)
    (h : rd pd (offset + 1) = 0) :
    sap_auth pd (offset + 4 + (sap_locals pd offset).addr_len) (rd pd (offset + 1)) =
      ⟨offset + 4 + (sap_locals pd offset).addr_len, [], []⟩ ∧
    (dissect_sap false pd offset captured_len fd true).items =
      (sap_header pd offset captured_len (sap_locals pd offset)).1.items ++
      (sap_payload pd (offset + 4 + (sap_locals pd offset).addr_len) captured_len
        (sap_locals pd offset)).1.items ∧
    (∀ it ∈ (dissect_sap false pd offset captured_len fd true).items, it.is_auth = false) ∧
    (dissect_sap false pd offset captured_len fd true).reads =
      sap_locals_reads offset ++
      (sap_header pd offset captured_len (sap_locals pd offset)).1.reads ++
      (sap_payload pd (offset + 4 + (sap_locals pd offset).addr_len) captured_len
        (sap_locals pd offset)).1.reads ∧
    (dissect_sap false pd offset captured_len fd true).sdp =
      (sap_payload pd (offset + 4 + (sap_locals pd offset).addr_len) captured_len
        (sap_locals pd offset)).2 := by
  have hi : (dissect_sap false pd offset captured_len fd true).items =
      (sap_header pd offset captured_len (sap_locals pd offset)).1.items ++
      (sap_payload pd (offset + 4 + (sap_locals pd offset).addr_len) captured_len
        (sap_locals pd offset)).1.items := by
    rw [dissect_sap_items, h, sap_auth_zero]; simp
  refine ⟨by rw [h, sap_auth_zero], hi, ?_, ?_, ?_⟩
  · intro it hit
    rw [hi] at hit
    rcases List.mem_append.mp hit with h1 | h1
    · exact sap_header_not_auth _ _ _ _ it h1
    · exact sap_payload_not_auth _ _ _ _ it h1
  · rw [dissect_sap_reads, h, sap_auth_zero]; simp
  · rw [dissect_sap_sdp, h]; rfl

theorem C5_no_auth_when_zero_witness :
    rd buf_scenario_A 1 = 0 ∧
    (dissect_sap false buf_scenario_A 0 12 ⟨true, true⟩ true).sdp = some 8 :=
  ⟨by decide, by
    rw [(C5_no_auth_when_zero buf_scenario_A 0 12 ⟨true, true⟩ (by decide)).2.2.2.2]
    decide⟩

theorem mangle_eq (pd : List Nat) (offset : Nat) :
    (if (sap_locals pd offset).is_enc ≠ 0 ∧ (sap_locals pd offset).is_comp ≠ 0 then
        "compressed and encrypted"
      else if (sap_locals pd offset).is_enc ≠ 0 then "encrypted" else "compressed") =
    (if (rd pd offset).testBit 1 = true ∧ (rd pd offset).testBit 0 = true then
        "compressed and encrypted"
      else if (rd pd offset).testBit 1 = true then "encrypted" else "compressed") := by
  rw [if_congr (and_congr (is_enc_iff pd offset) (is_comp_iff pd offset)) rfl
    (if_congr (is_enc_iff pd offset) rfl rfl)]

theorem sap_header_no_payload_type (pd : List Nat) (offset cl : Nat) (l : Locals) :
    (sap_header pd offset cl l).1.items.any Item.is_payload_type = false := by
  simp [sap_header, Item.is_payload_type]

theorem sap_auth_no_payload_type (pd : List Nat) (c n : Nat) :
    (sap_auth pd c n).items.any Item.is_payload_type = false := by
  unfold sap_auth
  by_cases h0 : n > 0
  · by_cases hp : rd pd c &&& MCAST_SAP_AUTH_BIT_P ≠ 0
    · simp only [if_pos h0, if_pos hp]
      simp [Item.is_payload_type]
    · simp only [if_pos h0, if_neg hp]
      simp [Item.is_payload_type]
  · simp only [if_neg h0]
    rfl

/-- C6: whenever bit 1 (encrypted) or bit 0 (compressed) of the flags byte is
set, `dissect_sap` does not call the SDP dissector, performs no payload type
test (after the authentication step nothing is read, and no payload type item
is added) and adds as its last item "The rest of the packet is ..." at the
cursor left by the header and the authentication subheader,
`offset + 4 + addr_len + 4 * auth_len`. -/
theorem C6_mangled_payload (pd : List Nat) (offset captured_len : Nat) (fd : frame_data)
    (h : (rd pd offset).testBit 1 = true ∨ (rd pd offset).testBit 0 = true) :
    (dissect_sap false pd offset captured_len fd true).sdp = none ∧
    (dissect_sap false pd offset captured_len fd true).items =
      (sap_header pd offset captured_len (sap_locals pd offset)).1.items ++
      (sap_auth pd (offset + 4 + (sap_locals pd offset).addr_len) (rd pd (offset + 1))).items ++
      [Item.text Tree.sap_tree
        ((offset + 4 + (sap_locals pd offset).addr_len + 4 * rd pd (offset + 1) : Nat) : Int)
        (END_OF_FRAME captured_len
          (offset + 4 + (sap_locals pd offset).addr_len + 4 * rd pd (offset + 1)))
        (Text.rest
          (if (rd pd offset).testBit 1 = true ∧ (rd pd offset).testBit 0 = true then
            "compressed and encrypted"
           else if (rd pd offset).testBit 1 = true then "encrypted" else "compressed"))] ∧
    (dissect_sap false pd offset captured_len fd true).reads =
      sap_locals_reads offset ++
      (sap_header pd offset captured_len (sap_locals pd offset)).1.reads ++
      (sap_auth pd (offset + 4 + (sap_locals pd offset).addr_len) (rd pd (offset + 1))).reads ∧
    (dissect_sap false pd offset captured_len fd true).items.any Item.is_payload_type = false := by
  have hl : (sap_locals pd offset).is_enc ≠ 0 ∨ (sap_locals pd offset).is_comp ≠ 0 :=
    h.imp (is_enc_iff pd offset).mpr (is_comp_iff pd offset).mpr
  have hi := dissect_sap_items pd offset captured_len fd
  rw [sap_payload_mangled pd _ captured_len _ hl, mangle_eq] at hi
  refine ⟨?_, hi, ?_, ?_⟩
  · rw [dissect_sap_sdp, sap_payload_mangled pd _ captured_len _ hl]
  · rw [dissect_sap_reads, sap_payload_mangled pd _ captured_len _ hl]; simp
  · rw [hi]
    simp only [List.any_append, sap_header_no_payload_type, sap_auth_no_payload_type]
    rfl

theorem C6_mangled_payload_witness :
    ((rd buf_scenario_C 0).testBit 1 = true ∨ (rd buf_scenario_C 0).testBit 0 = true) ∧
    (dissect_sap false buf_scenario_C 0 12 ⟨true, true⟩ true).sdp = none :=
  ⟨by decide, (C6_mangled_payload buf_scenario_C 0 12 ⟨true, true⟩ (by decide)).1⟩

theorem tolower_118 : tolower 118 = 118 := by decide

theorem tolower_61 : tolower 61 = 61 := by decide

theorem tolower_eq_118 (x : Nat) : tolower x = 118 ↔ (x = 118 ∨ x = 86) := by
  unfold tolower; split_ifs <;> omega

theorem tolower_eq_61 (y : Nat) : tolower y = 61 ↔ y = 61 := by
  unfold tolower; split_ifs <;> omega

theorem strncasecmp_v_eq (pd : List Nat) (c : Nat) :
    strncasecmp pd c str_v_eq str_v_eq.length = 0 ↔
      (rd pd c = 118 ∨ rd pd c = 86) ∧ rd pd (c + 1) = 61 := by
  simp only [str_v_eq, List.length_cons, List.length_nil, strncasecmp, List.headD_cons,
    List.tail_cons, tolower_118, tolower_61]
  by_cases h1 : rd pd c = 118 ∨ rd pd c = 86
  · have t1 : tolower (rd pd c) = 118 := (tolower_eq_118 _).mpr h1
    by_cases h2 : rd pd (c + 1) = 61
    · have t2 : tolower (rd pd (c + 1)) = 61 := (tolower_eq_61 _).mpr h2
      simp [t1, t2, h1, h2, tolower_61]
    · have t2 : tolower (rd pd (c + 1)) ≠ 61 := fun h => h2 ((tolower_eq_61 _).mp h)
      simp only [t1, ne_eq, not_true_eq_false, if_false, if_neg t2, h1, h2, and_false, iff_false]
      simp only [if_neg (show ¬ (118 = 0) by decide), if_pos trivial]
      omega
  · have t1 : tolower (rd pd c) ≠ 118 := fun h => h1 ((tolower_eq_118 _).mp h)
    simp only [ne_eq, if_pos t1, h1, false_and, iff_false]
    omega

theorem strncasecmp_reads_v_eq (pd : List Nat) (c : Nat) :
    strncasecmp_reads pd c str_v_eq str_v_eq.length =
      if rd pd c = 118 ∨ rd pd c = 86 then [c, c + 1] else [c] := by
  simp only [str_v_eq, List.length_cons, List.length_nil, strncasecmp_reads, List.headD_cons,
    List.tail_cons, tolower_118, tolower_61]
  by_cases h1 : rd pd c = 118 ∨ rd pd c = 86
  · have t1 : tolower (rd pd c) = 118 := (tolower_eq_118 _).mpr h1
    rw [if_pos h1]
    simp [t1]
  · have t1 : tolower (rd pd c) ≠ 118 := fun h => h1 ((tolower_eq_118 _).mp h)
    rw [if_neg h1, if_pos t1]

theorem strlen_step (pd : List Nat) (c : Nat) :
    strlen pd c = if rd pd c = 0 then 0 else strlen pd (c + 1) + 1 := by
  unfold strlen rd
  by_cases h : c < pd.length
  · rw [List.drop_eq_getElem_cons h, List.getD_eq_getElem pd 0 h]
    rfl
  · have h' : pd.length ≤ c := by omega
    rw [List.drop_eq_nil_of_le h', List.getD_eq_default _ _ h']
    simp [strlen_aux]

theorem strlen_eq (pd : List Nat) (n : Nat) : ∀ c : Nat,
    (∀ i, i < n → rd pd (c + i) ≠ 0) → rd pd (c + n) = 0 → strlen pd c = n := by
  induction n with
  | zero =>
    intro c _ h0
    rw [strlen_step, if_pos (by simpa using h0)]
  | succ k ih =>
    intro c hnz h0
    have hc : rd pd c ≠ 0 := by simpa using hnz 0 (by omega)
    rw [strlen_step, if_neg hc, ih (c + 1)]
    · intro i hi
      have := hnz (i + 1) (by omega)
      rwa [show c + 1 + i = c + (i + 1) by omega]
    · rwa [show c + 1 + k = c + (k + 1) by omega]

theorem strlen_spec (pd : List Nat) : ∀ c : Nat,
    rd pd (c + strlen pd c) = 0 ∧ ∀ i, i < strlen pd c → rd pd (c + i) ≠ 0 := by
  intro c
  generalize h : pd.length - c = k
  induction k generalizing c with
  | zero =>
    have h0 : rd pd c = 0 := by
      unfold rd; rw [List.getD_eq_default _ _ (by omega)]
    rw [strlen_step, if_pos h0]
    exact ⟨by simpa using h0, fun i hi => absurd hi (by omega)⟩
  | succ k ih =>
    by_cases h0 : rd pd c = 0
    · rw [strlen_step, if_pos h0]
      exact ⟨by simpa using h0, fun i hi => absurd hi (by omega)⟩
    · rw [strlen_step, if_neg h0]
      obtain ⟨h1, h2⟩ := ih (c + 1) (by omega)
      refine ⟨by rwa [show c + (strlen pd (c + 1) + 1) = c + 1 + strlen pd (c + 1) by omega], ?_⟩
      intro i hi
      cases i with
      | zero => simpa using h0
      | succ j =>
        have := h2 j (by omega)
        rwa [show c + (j + 1) = c + 1 + j by omega]

/-- C7, as stated, fails: `buf_upper_V` is neither encrypted nor compressed and
the two bytes at its cursor 8 are "V=", which is not the prefix "v=" with a
lower-case `v`; yet no payload type is reported, and the SDP dissector is
handed offset 8. -/
theorem C7_counterexample :
    (rd buf_upper_V 0).testBit 1 = false ∧ (rd buf_upper_V 0).testBit 0 = false ∧
    ¬ (rd buf_upper_V 8 = 118 ∧ rd buf_upper_V 9 = 61) ∧
    (dissect_sap false buf_upper_V 0 12 ⟨true, true⟩ true).items.any Item.is_payload_type = false ∧
    (dissect_sap false buf_upper_V 0 12 ⟨true, true⟩ true).sdp = some 8 ∧
    ¬ ((dissect_sap false buf_upper_V 0 12 ⟨true, true⟩ true).items.any Item.is_payload_type = true ↔
        ¬ (rd buf_upper_V 8 = 118 ∧ rd buf_upper_V 9 = 61)) := by
  decide

/-- C7, amended: for every message that is neither encrypted nor compressed, a
payload type is reported if and only if the two bytes at the cursor
`offset + 4 + addr_len + 4 * auth_len` do not match "v=" without regard to case,
that is unless the first is `v` or `V` and the second is `=`. -/
theorem C7_payload_type_iff (pd : List Nat) (offset captured_len : Nat) (fd : frame_data)
    (he : (rd pd offset).testBit 1 = false) (hc : (rd pd offset).testBit 0 = false) :
    (dissect_sap false pd offset captured_len fd true).items.any Item.is_payload_type = true ↔
      ¬ ((rd pd (offset + 4 + (sap_locals pd offset).addr_len + 4 * rd pd (offset + 1)) = 118 ∨
          rd pd (offset + 4 + (sap_locals pd offset).addr_len + 4 * rd pd (offset + 1)) = 86) ∧
         rd pd (offset + 4 + (sap_locals pd offset).addr_len + 4 * rd pd (offset + 1) + 1) = 61) := by
  have hl : ¬ ((sap_locals pd offset).is_enc ≠ 0 ∨ (sap_locals pd offset).is_comp ≠ 0) := by
    rw [is_enc_iff, is_comp_iff, he, hc]; simp
  rw [dissect_sap_items]
  simp only [List.any_append, sap_header_no_payload_type, sap_auth_no_payload_type, Bool.false_or]
  rw [← strncasecmp_v_eq]
  by_cases hv : strncasecmp pd (offset + 4 + (sap_locals pd offset).addr_len + 4 * rd pd (offset + 1))
      str_v_eq str_v_eq.length = 0
  · rw [sap_payload_sdp pd _ captured_len _ hl hv]
    simp [hv]
  · rw [sap_payload_type pd _ captured_len _ hl hv]
    simp [hv, Item.is_payload_type]

theorem C7_payload_type_iff_witness :
    (rd buf_payload_type 0).testBit 1 = false ∧ (rd buf_payload_type 0).testBit 0 = false ∧
    ¬ ((rd buf_payload_type 8 = 118 ∨ rd buf_payload_type 8 = 86) ∧ rd buf_payload_type 9 = 61) ∧
    (dissect_sap false buf_payload_type 0 28 ⟨true, true⟩ true).items.any Item.is_payload_type = true :=
  ⟨by decide, by decide, by decide,
    (C7_payload_type_iff buf_payload_type 0 28 ⟨true, true⟩ (by decide) (by decide)).mpr (by decide)⟩

theorem rd_bytes_ne_zero (pd : List Nat) (c n : Nat) (hnz : ∀ i, i < n → rd pd (c + i) ≠ 0) :
    ∀ b ∈ rd_bytes pd c n, b ≠ 0 := by
  intro b hb
  simp only [rd_bytes, List.mem_map, List.mem_range'_1] at hb
  obtain ⟨i, ⟨h1, h2⟩, rfl⟩ := hb
  have := hnz (i - c) (by omega)
  rwa [show c + (i - c) = i by omega] at this

/-- C8, as stated, fails: `buf_upper_V_crlf` is neither encrypted nor
compressed, the bytes at its cursor 8 are "V=0\r\n" and do not begin with "v=",
and the first NUL at or after 8 is at distance 5; the claim hands offset
`8 + 5 + 1 = 14` to the SDP dissector after a payload type of 5 bytes, but
`dissect_sap` hands it offset 8 and reports no payload type. -/
theorem C8_counterexample :
    (rd buf_upper_V_crlf 0).testBit 1 = false ∧ (rd buf_upper_V_crlf 0).testBit 0 = false ∧
    0 + 4 + (sap_locals buf_upper_V_crlf 0).addr_len + 4 * rd buf_upper_V_crlf 1 = 8 ∧
    ¬ (rd buf_upper_V_crlf 8 = 118 ∧ rd buf_upper_V_crlf 9 = 61) ∧
    rd buf_upper_V_crlf (8 + 5) = 0 ∧ (∀ i, i < 5 → rd buf_upper_V_crlf (8 + i) ≠ 0) ∧
    (dissect_sap false buf_upper_V_crlf 0 14 ⟨true, true⟩ true).sdp = some 8 ∧
    (dissect_sap false buf_upper_V_crlf 0 14 ⟨true, true⟩ true).sdp ≠ some (8 + 5 + 1) ∧
    (dissect_sap false buf_upper_V_crlf 0 14 ⟨true, true⟩ true).items.any Item.is_payload_type =
      false := by
  decide

/-- C8, amended: for every message that is neither encrypted nor compressed,
with `c = offset + 4 + addr_len + 4 * auth_len` the cursor after the header and
the authentication subheader and `n` the distance from `c` to the first NUL byte
at or after `c`: when the bytes at `c` match "v=" without regard to case (`v` or
`V`, then `=`) the SDP dissector is handed `c` and no payload type is reported;
otherwise the last item is the payload type at `c`, of length `n`, holding
exactly the `n` bytes at `c`, ..., `c + n - 1`, none of them NUL, and the SDP
dissector is handed `c + n + 1`. -/
theorem C8_sdp_offset (pd : List Nat) (offset captured_len : Nat) (fd : frame_data) (c n : Nat)
    (he : (rd pd offset).testBit 1 = false) (hc : (rd pd offset).testBit 0 = false)
    (hcur : c = offset + 4 + (sap_locals pd offset).addr_len + 4 * rd pd (offset + 1))
    (hnz : ∀ i, i < n → rd pd (c + i) ≠ 0) (hnul : rd pd (c + n) = 0) (hn : n < 4294967296) :
    if (rd pd c = 118 ∨ rd pd c = 86) ∧ rd pd (c + 1) = 61 then
      (dissect_sap false pd offset captured_len fd true).sdp = some c ∧
      (dissect_sap false pd offset captured_len fd true).items.any Item.is_payload_type = false
    else
      (dissect_sap false pd offset captured_len fd true).items =
        (sap_header pd offset captured_len (sap_locals pd offset)).1.items ++
        (sap_auth pd (offset + 4 + (sap_locals pd offset).addr_len) (rd pd (offset + 1))).items ++
        [Item.text Tree.sap_tree (c : Int) (n : Int) (Text.payload_type (rd_bytes pd c n))] ∧
      (rd_bytes pd c n).length = n ∧ (∀ b ∈ rd_bytes pd c n, b ≠ 0) ∧
      (dissect_sap false pd offset captured_len fd true).sdp = some (c + n + 1) := by
  have hl : ¬ ((sap_locals pd offset).is_enc ≠ 0 ∨ (sap_locals pd offset).is_comp ≠ 0) := by
    rw [is_enc_iff, is_comp_iff, he, hc]; simp
  have hs : strlen pd c = n := strlen_eq pd n c hnz hnul
  have hm : n % 4294967296 = n := by omega
  rw [dissect_sap_items, dissect_sap_sdp, ← hcur]
  by_cases hv' : (rd pd c = 118 ∨ rd pd c = 86) ∧ rd pd (c + 1) = 61
  · have hv := (strncasecmp_v_eq pd c).mpr hv'
    rw [if_pos hv', sap_payload_sdp pd _ captured_len _ hl hv]
    refine ⟨rfl, ?_⟩
    simp only [List.any_append, sap_header_no_payload_type, sap_auth_no_payload_type]
    rfl
  · have hv : strncasecmp pd c str_v_eq str_v_eq.length ≠ 0 :=
      fun h => hv' ((strncasecmp_v_eq pd c).mp h)
    rw [if_neg hv', sap_payload_type pd _ captured_len _ hl hv]
    rw [hs, hm, if_pos hnul]
    exact ⟨rfl, by simp [rd_bytes], rd_bytes_ne_zero pd c n hnz, rfl⟩

theorem C8_sdp_offset_witness :
    (rd buf_payload_type 0).testBit 1 = false ∧ (rd buf_payload_type 0).testBit 0 = false ∧
    (∀ i, i < 15 → rd buf_payload_type (8 + i) ≠ 0) ∧ rd buf_payload_type (8 + 15) = 0 ∧
    (if (rd buf_payload_type 8 = 118 ∨ rd buf_payload_type 8 = 86) ∧ rd buf_payload_type (8 + 1) = 61
     then
      (dissect_sap false buf_payload_type 0 28 ⟨true, true⟩ true).sdp = some 8 ∧
      (dissect_sap false buf_payload_type 0 28 ⟨true, true⟩ true).items.any Item.is_payload_type =
        false
     else
      (dissect_sap false buf_payload_type 0 28 ⟨true, true⟩ true).items =
        (sap_header buf_payload_type 0 28 (sap_locals buf_payload_type 0)).1.items ++
        (sap_auth buf_payload_type (0 + 4 + (sap_locals buf_payload_type 0).addr_len)
          (rd buf_payload_type (0 + 1))).items ++
        [Item.text Tree.sap_tree ((8 : Nat) : Int) ((15 : Nat) : Int)
          (Text.payload_type (rd_bytes buf_payload_type 8 15))] ∧
      (rd_bytes buf_payload_type 8 15).length = 15 ∧
      (∀ b ∈ rd_bytes buf_payload_type 8 15, b ≠ 0) ∧
      (dissect_sap false buf_payload_type 0 28 ⟨true, true⟩ true).sdp = some (8 + 15 + 1)) :=
  ⟨by decide, by decide, by decide, by decide,
    C8_sdp_offset buf_payload_type 0 28 ⟨true, true⟩ 8 15 (by decide) (by decide) (by decide)
      (by decide) (by decide) (by decide)⟩

theorem strlen_mem_reads (pd : List Nat) (c : Nat) : c + strlen pd c ∈ strlen_reads pd c := by
  unfold strlen_reads
  rw [List.mem_range'_1]
  omega

/-- C9: the code does not do what the claim says.  For every message that is
neither encrypted nor compressed, whose bytes from the cursor `c` to the end of
the buffer (`captured_len`) contain no NUL and do not match "v=", the `strlen`
of line 231 runs to the first NUL behind the buffer: the index
`c + strlen(pd + c)`, at or beyond `captured_len`, is read; no failure is
reported, a payload type item is added and the SDP dissector is called. -/
theorem C9_scan_not_bounded (pd : List Nat) (offset captured_len : Nat) (fd : frame_data)
    (c : Nat)
    (he : (rd pd offset).testBit 1 = false) (hc : (rd pd offset).testBit 0 = false)
    (hcur : c = offset + 4 + (sap_locals pd offset).addr_len + 4 * rd pd (offset + 1))
    (hv : ¬ ((rd pd c = 118 ∨ rd pd c = 86) ∧ rd pd (c + 1) = 61))
    (hnz : ∀ i, c ≤ i → i < captured_len → rd pd i ≠ 0) :
    captured_len ≤ c + strlen pd c ∧
    c + strlen pd c ∈ (dissect_sap false pd offset captured_len fd true).reads ∧
    (dissect_sap false pd offset captured_len fd true).data = none ∧
    (dissect_sap false pd offset captured_len fd true).items.any Item.is_payload_type = true ∧
    (dissect_sap false pd offset captured_len fd true).sdp.isSome = true := by
  have hl : ¬ ((sap_locals pd offset).is_enc ≠ 0 ∨ (sap_locals pd offset).is_comp ≠ 0) := by
    rw [is_enc_iff, is_comp_iff, he, hc]; simp
  have hv' : strncasecmp pd c str_v_eq str_v_eq.length ≠ 0 :=
    fun h => hv ((strncasecmp_v_eq pd c).mp h)
  refine ⟨?_, ?_, ?_, ?_, ?_⟩
  · by_contra hlt
    exact hnz (c + strlen pd c) (by omega) (by omega) (strlen_spec pd c).1
  · rw [dissect_sap_reads, ← hcur, sap_payload_type pd _ captured_len _ hl hv']
    apply List.mem_append_right
    apply List.mem_append_left
    apply List.mem_append_left
    exact List.mem_append_right _ (strlen_mem_reads pd c)
  · simp [dissect_sap]
  · rw [dissect_sap_items, ← hcur, sap_payload_type pd _ captured_len _ hl hv']
    simp [Item.is_payload_type]
  · rw [dissect_sap_sdp, ← hcur, sap_payload_type pd _ captured_len _ hl hv']
    rfl

theorem C9_scan_not_bounded_witness :
    ((rd buf_unterminated 0).testBit 1 = false ∧ (rd buf_unterminated 0).testBit 0 = false ∧
      ¬ ((rd buf_unterminated 8 = 118 ∨ rd buf_unterminated 8 = 86) ∧ rd buf_unterminated 9 = 61) ∧
      ∀ i, 8 ≤ i → i < 11 → rd buf_unterminated i ≠ 0) ∧
    (11 ≤ 8 + strlen buf_unterminated 8 ∧
      8 + strlen buf_unterminated 8 ∈ (dissect_sap false buf_unterminated 0 11 ⟨true, true⟩ true).reads ∧
      (dissect_sap false buf_unterminated 0 11 ⟨true, true⟩ true).data = none ∧
      (dissect_sap false buf_unterminated 0 11 ⟨true, true⟩ true).items.any Item.is_payload_type =
        true ∧
      (dissect_sap false buf_unterminated 0 11 ⟨true, true⟩ true).sdp.isSome = true) ∧
    dissect_sap false buf_unterminated 0 11 ⟨true, true⟩ true =
      ⟨none, some "SAP", some ("Announcement", 0),
        [ Item.item Tree.tree Field.proto_sap 0 11,
          Item.uint Tree.sap_tree Field.hf_sap_flags 0 1 0,
          Item.uint Tree.sap_flags_tree Field.hf_sap_flags_v 0 1 0,
          Item.boolean Tree.sap_flags_tree Field.hf_sap_flags_a 0 1 0,
          Item.boolean Tree.sap_flags_tree Field.hf_sap_flags_r 0 1 0,
          Item.boolean Tree.sap_flags_tree Field.hf_sap_flags_t 0 1 0,
          Item.boolean Tree.sap_flags_tree Field.hf_sap_flags_e 0 1 0,
          Item.boolean Tree.sap_flags_tree Field.hf_sap_flags_c 0 1 0,
          Item.text Tree.sap_tree 1 1 (Text.auth_length 0),
          Item.text Tree.sap_tree 2 2 (Text.msg_id_hash 4660),
          Item.text Tree.sap_tree 4 4 (Text.orig_source false [192, 168, 1, 1]),
          Item.text Tree.sap_tree 8 5 (Text.payload_type [97, 98, 99, 100, 101]) ],
        [0, 0, 0, 0, 0, 0, 0, 0, 0, 0, 0, 0, 1, 1, 2, 3, 4, 5, 6, 7,
          8, 8, 9, 10, 11, 12, 13, 8, 9, 10, 11, 12, 13, 13],
        some 14⟩ :=
  ⟨by decide,
    C9_scan_not_bounded buf_unterminated 0 11 ⟨true, true⟩ 8 (by decide) (by decide) (by decide)
      (by decide) (by decide),
    by decide⟩

theorem sap_header_reads_mem (pd : List Nat) (offset cl : Nat) (l : Locals) (i : Nat)
    (h1 : offset ≤ i) (h2 : i < offset + 4 + l.addr_len) :
    i ∈ (sap_header pd offset cl l).1.reads := by
  rw [sap_header_reads]
  by_cases h : i < offset + 4
  · apply List.mem_append_left
    have : i = offset ∨ i = offset + 1 ∨ i = offset + 2 ∨ i = offset + 3 := by omega
    rcases this with h | h | h | h <;> subst h <;> simp
  · apply List.mem_append_right
    rw [List.mem_range'_1]
    omega

/-- C10, as stated, fails: with only the first 3 bytes of `buf_scenario_A` in
the buffer (`captured_len = 3`, less than `4 + addr_len = 8`), `dissect_sap`
reports no truncated header: it reads the indices 3 to 9, all of them beyond
the end of the buffer, adds the hash and the originating source from them and
hands offset 8 to the SDP dissector. -/
theorem C10_counterexample :
    3 < 4 + (sap_locals buf_scenario_A 0).addr_len ∧
    dissect_sap false buf_scenario_A 0 3 ⟨true, true⟩ true =
      ⟨none, some "SAP", some ("Announcement", 0),
        [ Item.item Tree.tree Field.proto_sap 0 3,
          Item.uint Tree.sap_tree Field.hf_sap_flags 0 1 0,
          Item.uint Tree.sap_flags_tree Field.hf_sap_flags_v 0 1 0,
          Item.boolean Tree.sap_flags_tree Field.hf_sap_flags_a 0 1 0,
          Item.boolean Tree.sap_flags_tree Field.hf_sap_flags_r 0 1 0,
          Item.boolean Tree.sap_flags_tree Field.hf_sap_flags_t 0 1 0,
          Item.boolean Tree.sap_flags_tree Field.hf_sap_flags_e 0 1 0,
          Item.boolean Tree.sap_flags_tree Field.hf_sap_flags_c 0 1 0,
          Item.text Tree.sap_tree 1 1 (Text.auth_length 0),
          Item.text Tree.sap_tree 2 2 (Text.msg_id_hash 4660),
          Item.text Tree.sap_tree 4 4 (Text.orig_source false [192, 168, 1, 1]) ],
        [0, 0, 0, 0, 0, 0, 0, 0, 0, 0, 0, 0, 1, 1, 2, 3, 4, 5, 6, 7, 8, 9],
        some 8⟩ := by
  decide

/-- C10, amended: for every buffer shorter than `4 + addr_len` bytes
(`addr_len` taken from bit 4 of the flags byte), `dissect_sap` makes no length
check and reports no error: it reads every index from `offset` to
`offset + 3 + addr_len`, the last of which lies at or beyond the end of the
buffer, adds the authentication length, the hash and the originating source
taken from those bytes, and goes on with the authentication and payload
steps. -/
theorem C10_no_length_check (pd : List Nat) (offset captured_len : Nat) (fd : frame_data)
    (h : captured_len < offset + 4 + (sap_locals pd offset).addr_len) :
    (dissect_sap false pd offset captured_len fd true).data = none ∧
    (∀ i, offset ≤ i → i < offset + 4 + (sap_locals pd offset).addr_len →
      i ∈ (dissect_sap false pd offset captured_len fd true).reads) ∧
    captured_len ≤ offset + 3 + (sap_locals pd offset).addr_len ∧
    offset + 3 + (sap_locals pd offset).addr_len ∈
      (dissect_sap false pd offset captured_len fd true).reads ∧
    Item.text Tree.sap_tree ((offset : Int) + 1) 1 (Text.auth_length (rd pd (offset + 1))) ∈
      (dissect_sap false pd offset captured_len fd true).items ∧
    Item.text Tree.sap_tree ((offset : Int) + 2) 2
        (Text.msg_id_hash (rd pd (offset + 2) * 256 + rd pd (offset + 3))) ∈
      (dissect_sap false pd offset captured_len fd true).items ∧
    Item.text Tree.sap_tree ((offset : Int) + 4) ((sap_locals pd offset).addr_len : Int)
        (Text.orig_source ((rd pd offset).testBit 4)
          (rd_bytes pd (offset + 4) (sap_locals pd offset).addr_len)) ∈
      (dissect_sap false pd offset captured_len fd true).items ∧
    (dissect_sap false pd offset captured_len fd true).items =
      (sap_header pd offset captured_len (sap_locals pd offset)).1.items ++
      (sap_auth pd (offset + 4 + (sap_locals pd offset).addr_len) (rd pd (offset + 1))).items ++
      (sap_payload pd (offset + 4 + (sap_locals pd offset).addr_len + 4 * rd pd (offset + 1))
        captured_len (sap_locals pd offset)).1.items := by
  have hr : ∀ i, offset ≤ i → i < offset + 4 + (sap_locals pd offset).addr_len →
      i ∈ (dissect_sap false pd offset captured_len fd true).reads := by
    intro i h1 h2
    rw [dissect_sap_reads]
    apply List.mem_append_left
    apply List.mem_append_left
    exact List.mem_append_right _ (sap_header_reads_mem pd offset captured_len _ i h1 h2)
  refine ⟨by simp [dissect_sap], hr, by omega, hr _ (by omega) (by omega), ?_, ?_, ?_,
    dissect_sap_items _ _ _ _⟩
  · rw [dissect_sap_items]
    apply List.mem_append_left
    apply List.mem_append_left
    simp [sap_header]
  · rw [dissect_sap_items]
    apply List.mem_append_left
    apply List.mem_append_left
    simp [sap_header, pntohs]
    omega
  · rw [dissect_sap_items, ← decide_is_ipv6]
    exact List.mem_append_left _ (List.mem_append_left _ (orig_source_mem pd offset _ _))

theorem C10_no_length_check_witness :
    3 < 0 + 4 + (sap_locals buf_scenario_A 0).addr_len ∧
    0 + 3 + (sap_locals buf_scenario_A 0).addr_len ∈
      (dissect_sap false buf_scenario_A 0 3 ⟨true, true⟩ true).reads :=
  ⟨by decide, (C10_no_length_check buf_scenario_A 0 3 ⟨true, true⟩ (by decide)).2.2.2.1⟩

/-- C11, as stated, fails: with only the first 12 bytes of `buf_scenario_D` in
the buffer (`captured_len = 12`), the authentication subheader of
`data_len = 8` bytes starts at 8 and only 4 of its bytes remain; `dissect_sap`
reports no truncated authentication header: it reads the pad count at index 15,
beyond the end of the buffer, adds the authentication items from it and hands
offset 16 to the SDP dissector. -/
theorem C11_counterexample :
    0 < rd buf_scenario_D 1 ∧ 12 < 8 + 4 * rd buf_scenario_D 1 ∧
    dissect_sap false buf_scenario_D 0 12 ⟨true, true⟩ true =
      ⟨none, some "SAP", some ("Announcement", 1),
        [ Item.item Tree.tree Field.proto_sap 0 12,
          Item.uint Tree.sap_tree Field.hf_sap_flags 0 1 32,
          Item.uint Tree.sap_flags_tree Field.hf_sap_flags_v 0 1 32,
          Item.boolean Tree.sap_flags_tree Field.hf_sap_flags_a 0 1 32,
          Item.boolean Tree.sap_flags_tree Field.hf_sap_flags_r 0 1 32,
          Item.boolean Tree.sap_flags_tree Field.hf_sap_flags_t 0 1 32,
          Item.boolean Tree.sap_flags_tree Field.hf_sap_flags_e 0 1 32,
          Item.boolean Tree.sap_flags_tree Field.hf_sap_flags_c 0 1 32,
          Item.text Tree.sap_tree 1 1 (Text.auth_length 2),
          Item.text Tree.sap_tree 2 2 (Text.msg_id_hash 4660),
          Item.text Tree.sap_tree 4 4 (Text.orig_source false [192, 168, 1, 1]),
          Item.item Tree.sap_tree Field.hf_auth_data 8 8,
          Item.uint Tree.sa_tree Field.hf_auth_flags 8 1 16,
          Item.uint Tree.saf_tree Field.hf_auth_flags_v 8 1 16,
          Item.boolean Tree.saf_tree Field.hf_auth_flags_p 8 1 16,
          Item.uint Tree.saf_tree Field.hf_auth_flags_t 8 1 16,
          Item.text Tree.sa_tree 9 4 (Text.auth_subheader 7),
          Item.text Tree.sa_tree 13 3 (Text.auth_padding 3),
          Item.text Tree.sa_tree 15 1 (Text.auth_pad_count 3) ],
        [0, 0, 0, 0, 0, 0, 0, 0, 0, 0, 0, 0, 1, 1, 2, 3, 4, 5, 6, 7, 8, 8, 8, 8, 8, 15, 16, 17],
        some 16⟩ := by
  decide

theorem sap_auth_reads_flags (pd : List Nat) (c n : Nat) (h0 : 0 < n) (h : n < 256) :
    c ∈ (sap_auth pd c n).reads := by
  by_cases hp : (rd pd c).testBit 4 = true
  · rw [sap_auth_padded pd c n h0 h hp]; simp
  · rw [sap_auth_unpadded pd c n h0 h hp]; simp

theorem sap_auth_data_item (pd : List Nat) (c n : Nat) (h0 : 0 < n) (h : n < 256) :
    Item.item Tree.sap_tree Field.hf_auth_data (c : Int) ((4 * n : Nat) : Int) ∈
      (sap_auth pd c n).items := by
  by_cases hp : (rd pd c).testBit 4 = true
  · rw [sap_auth_padded pd c n h0 h hp]; simp
  · rw [sap_auth_unpadded pd c n h0 h hp]; simp

/-- C11, amended: for every buffer with `auth_len > 0` in which fewer than
`data_len = 4 * auth_len` bytes remain after the originating source,
`dissect_sap` makes no length check and reports no error: it reads the
authentication flags byte at the start `b` of the block, adds the
authentication data item of length `data_len`, and when bit 4 of the flags byte
is set reads the pad count at `b + data_len - 1`, an index at or beyond the end
of the buffer; it then advances the cursor by `data_len` and goes on with the
payload there. -/
theorem C11_no_auth_length_check (pd : List Nat) (offset captured_len : Nat) (fd : frame_data)
    (h : 0 < rd pd (offset + 1))
    (ht : captured_len <
      offset + 4 + (sap_locals pd offset).addr_len + 4 * rd pd (offset + 1)) :
    (dissect_sap false pd offset captured_len fd true).data = none ∧
    offset + 4 + (sap_locals pd offset).addr_len ∈
      (dissect_sap false pd offset captured_len fd true).reads ∧
    Item.item Tree.sap_tree Field.hf_auth_data
        ((offset + 4 + (sap_locals pd offset).addr_len : Nat) : Int)
        ((4 * rd pd (offset + 1) : Nat) : Int) ∈
      (dissect_sap false pd offset captured_len fd true).items ∧
    captured_len ≤ offset + 4 + (sap_locals pd offset).addr_len + 4 * rd pd (offset + 1) - 1 ∧
    ((rd pd (offset + 4 + (sap_locals pd offset).addr_len)).testBit 4 = true →
      offset + 4 + (sap_locals pd offset).addr_len + 4 * rd pd (offset + 1) - 1 ∈
        (dissect_sap false pd offset captured_len fd true).reads) ∧
    (dissect_sap false pd offset captured_len fd true).items =
      (sap_header pd offset captured_len (sap_locals pd offset)).1.items ++
      (sap_auth pd (offset + 4 + (sap_locals pd offset).addr_len) (rd pd (offset + 1))).items ++
      (sap_payload pd (offset + 4 + (sap_locals pd offset).addr_len + 4 * rd pd (offset + 1))
        captured_len (sap_locals pd offset)).1.items ∧
    (dissect_sap false pd offset captured_len fd true).sdp =
      (sap_payload pd (offset + 4 + (sap_locals pd offset).addr_len + 4 * rd pd (offset + 1))
        captured_len (sap_locals pd offset)).2 := by
  have hn := rd_lt pd (offset + 1)
  refine ⟨by simp [dissect_sap], ?_, ?_, by omega, ?_, dissect_sap_items _ _ _ _,
    dissect_sap_sdp _ _ _ _⟩
  · rw [dissect_sap_reads]
    apply List.mem_append_left
    exact List.mem_append_right _ (sap_auth_reads_flags pd _ _ h hn)
  · rw [dissect_sap_items]
    apply List.mem_append_left
    exact List.mem_append_right _ (sap_auth_data_item pd _ _ h hn)
  · intro hp
    rw [dissect_sap_reads]
    apply List.mem_append_left
    apply List.mem_append_right
    rw [sap_auth_padded pd _ _ h hn hp]
    simp

theorem C11_no_auth_length_check_witness :
    0 < rd buf_scenario_D 1 ∧
    12 < 0 + 4 + (sap_locals buf_scenario_D 0).addr_len + 4 * rd buf_scenario_D (0 + 1) ∧
    Item.item Tree.sap_tree Field.hf_auth_data 8 8 ∈
      (dissect_sap false buf_scenario_D 0 12 ⟨true, true⟩ true).items :=
  ⟨by decide, by decide,
    (C11_no_auth_length_check buf_scenario_D 0 12 ⟨true, true⟩ (by decide) (by decide)).2.2.1⟩

set_option maxRecDepth 100000 in
theorem auth_byte_facts : ∀ b, b < 256 →
    field_value Field.hf_auth_flags_v b = (b &&& 0xE0) >>> 5 ∧
    field_value Field.hf_auth_flags_v b = b / 32 ∧
    field_value Field.hf_auth_flags_p b = (if b.testBit 4 = true then 1 else 0) ∧
    field_value Field.hf_auth_flags_t b = b &&& 0x0F ∧
    field_value Field.hf_auth_flags_t b = b % 16 ∧
    field_label Field.hf_auth_flags_t b =
      (if b % 16 = 0 then some "PGP" else if b % 16 = 1 then some "CMS" else none) := by
  decide

theorem sap_auth_flags_items (pd : List Nat) (c n : Nat) (h0 : 0 < n) (h : n < 256) :
    Item.uint Tree.saf_tree Field.hf_auth_flags_v (c : Int) 1 (rd pd c) ∈ (sap_auth pd c n).items ∧
    Item.boolean Tree.saf_tree Field.hf_auth_flags_p (c : Int) 1 (rd pd c) ∈
      (sap_auth pd c n).items ∧
    Item.uint Tree.saf_tree Field.hf_auth_flags_t (c : Int) 1 (rd pd c) ∈ (sap_auth pd c n).items := by
  by_cases hp : (rd pd c).testBit 4 = true
  · rw [sap_auth_padded pd c n h0 h hp]; simp
  · rw [sap_auth_unpadded pd c n h0 h hp]; simp

theorem mem_auth_items (pd : List Nat) (offset cl : Nat) (fd : frame_data) (it : Item)
    (h : it ∈ (sap_auth pd (offset + 4 + (sap_locals pd offset).addr_len)
      (rd pd (offset + 1))).items) :
    it ∈ (dissect_sap false pd offset cl fd true).items := by
  rw [dissect_sap_items]
  exact List.mem_append_left _ (List.mem_append_right _ h)

/-- C12, as stated, fails: the authentication flags byte of `buf_scenario_D`
is `0x10`, for which `(b & 0xF0) >> 4` is 1; the version field
`hf_auth_flags_v`, which `dissect_sap` is given the byte for, is registered
with the mask `0xE0` and shows 0. -/
theorem C12_counterexample :
    0 < rd buf_scenario_D 1 ∧ rd buf_scenario_D 8 = 0x10 ∧
    Item.uint Tree.saf_tree Field.hf_auth_flags_v 8 1 0x10 ∈
      (dissect_sap false buf_scenario_D 0 20 ⟨true, true⟩ true).items ∧
    hf_bitmask Field.hf_auth_flags_v = 0xE0 ∧
    field_value Field.hf_auth_flags_v 0x10 = 0 ∧
    (0x10 &&& 0xF0) >>> 4 = 1 ∧
    field_value Field.hf_auth_flags_v (rd buf_scenario_D 8) ≠ (rd buf_scenario_D 8 &&& 0xF0) >>> 4 := by
  decide

/-- C12, amended: for every authentication flags byte `b`, the first byte of a
non-empty authentication subheader, `dissect_sap` gives `b` to the version
field `hf_auth_flags_v`, which is registered with `MCAST_SAP_VERSION_MASK`: the
authentication version is decoded as `(b & 0xE0) >> 5`, the three bits 7-5, a
value from 0 to 7. -/
theorem C12_auth_version (pd : List Nat) (offset captured_len : Nat) (fd : frame_data)
    (h : 0 < rd pd (offset + 1)) :
    Item.uint Tree.saf_tree Field.hf_auth_flags_v
        ((offset + 4 + (sap_locals pd offset).addr_len : Nat) : Int) 1
        (rd pd (offset + 4 + (sap_locals pd offset).addr_len)) ∈
      (dissect_sap false pd offset captured_len fd true).items ∧
    hf_bitmask Field.hf_auth_flags_v = MCAST_SAP_VERSION_MASK ∧
    MCAST_SAP_VERSION_MASK = 0xE0 ∧
    field_value Field.hf_auth_flags_v (rd pd (offset + 4 + (sap_locals pd offset).addr_len)) =
      (rd pd (offset + 4 + (sap_locals pd offset).addr_len) &&& 0xE0) >>> 5 ∧
    field_value Field.hf_auth_flags_v (rd pd (offset + 4 + (sap_locals pd offset).addr_len)) =
      rd pd (offset + 4 + (sap_locals pd offset).addr_len) / 32 ∧
    field_value Field.hf_auth_flags_v (rd pd (offset + 4 + (sap_locals pd offset).addr_len)) ≤ 7 := by
  have hn := rd_lt pd (offset + 1)
  have hb := rd_lt pd (offset + 4 + (sap_locals pd offset).addr_len)
  obtain ⟨h1, h2, _⟩ := auth_byte_facts _ hb
  refine ⟨mem_auth_items pd offset captured_len fd _ (sap_auth_flags_items pd _ _ h hn).1,
    rfl, rfl, h1, h2, ?_⟩
  rw [h2]; omega

theorem C12_auth_version_witness :
    0 < rd buf_scenario_D 1 ∧
    field_value Field.hf_auth_flags_v
        (rd buf_scenario_D (0 + 4 + (sap_locals buf_scenario_D 0).addr_len)) =
      rd buf_scenario_D (0 + 4 + (sap_locals buf_scenario_D 0).addr_len) / 32 :=
  ⟨by decide, (C12_auth_version buf_scenario_D 0 20 ⟨true, true⟩ (by decide)).2.2.2.2.1⟩

theorem sap_auth_pad_count (pd : List Nat) (c n : Nat) (h0 : 0 < n) (h : n < 256) :
    (sap_auth pd c n).items.any Item.is_pad_count = (rd pd c).testBit 4 := by
  by_cases hp : (rd pd c).testBit 4 = true
  · rw [sap_auth_padded pd c n h0 h hp, hp]; simp [Item.is_pad_count]
  · rw [sap_auth_unpadded pd c n h0 h hp]
    have hp' : (rd pd c).testBit 4 = false := by simpa using hp
    rw [hp']; simp [Item.is_pad_count]

/-- C13: for every authentication flags byte `b`, the first byte of a non-empty
authentication subheader, padding is reported exactly when `b & 0x10` is
non-zero (the local `has_pad`, the padding items, and the field
`hf_auth_flags_p` registered with the mask `0x10`); the authentication type
field `hf_auth_flags_t` is registered with the mask `0x0F` and the table
`mcast_sap_auth_type`, so that its value is `b & 0x0F`, labelled "PGP" when that
is 0, "CMS" when it is 1, and without table entry for every value from 2 to
15. -/
theorem C13_auth_pad_and_type (pd : List Nat) (offset captured_len : Nat) (fd : frame_data)
    (h : 0 < rd pd (offset + 1)) :
    Item.boolean Tree.saf_tree Field.hf_auth_flags_p
        ((offset + 4 + (sap_locals pd offset).addr_len : Nat) : Int) 1
        (rd pd (offset + 4 + (sap_locals pd offset).addr_len)) ∈
      (dissect_sap false pd offset captured_len fd true).items ∧
    Item.uint Tree.saf_tree Field.hf_auth_flags_t
        ((offset + 4 + (sap_locals pd offset).addr_len : Nat) : Int) 1
        (rd pd (offset + 4 + (sap_locals pd offset).addr_len)) ∈
      (dissect_sap false pd offset captured_len fd true).items ∧
    (rd pd (offset + 4 + (sap_locals pd offset).addr_len) &&& MCAST_SAP_AUTH_BIT_P ≠ 0 ↔
      rd pd (offset + 4 + (sap_locals pd offset).addr_len) &&& 0x10 ≠ 0) ∧
    (rd pd (offset + 4 + (sap_locals pd offset).addr_len) &&& 0x10 ≠ 0 ↔
      (rd pd (offset + 4 + (sap_locals pd offset).addr_len)).testBit 4 = true) ∧
    (sap_auth pd (offset + 4 + (sap_locals pd offset).addr_len) (rd pd (offset + 1))).items.any
        Item.is_pad_count =
      (rd pd (offset + 4 + (sap_locals pd offset).addr_len)).testBit 4 ∧
    hf_bitmask Field.hf_auth_flags_p = 0x10 ∧
    field_value Field.hf_auth_flags_p (rd pd (offset + 4 + (sap_locals pd offset).addr_len)) =
      (if (rd pd (offset + 4 + (sap_locals pd offset).addr_len)).testBit 4 = true then 1
       else 0) ∧
    hf_bitmask Field.hf_auth_flags_t = 0x0F ∧
    hf_strings Field.hf_auth_flags_t = some mcast_sap_auth_type ∧
    field_value Field.hf_auth_flags_t (rd pd (offset + 4 + (sap_locals pd offset).addr_len)) =
      rd pd (offset + 4 + (sap_locals pd offset).addr_len) &&& 0x0F ∧
    field_label Field.hf_auth_flags_t (rd pd (offset + 4 + (sap_locals pd offset).addr_len)) =
      match_strval (rd pd (offset + 4 + (sap_locals pd offset).addr_len) &&& 0x0F)
        mcast_sap_auth_type ∧
    match_strval 0 mcast_sap_auth_type = some "PGP" ∧
    match_strval 1 mcast_sap_auth_type = some "CMS" ∧
    (∀ v, 2 ≤ v → match_strval v mcast_sap_auth_type = none) := by
  have hn := rd_lt pd (offset + 1)
  have hb := rd_lt pd (offset + 4 + (sap_locals pd offset).addr_len)
  obtain ⟨_, _, h3, h4, _, _⟩ := auth_byte_facts _ hb
  have hi := sap_auth_flags_items pd (offset + 4 + (sap_locals pd offset).addr_len) _ h hn
  refine ⟨mem_auth_items pd offset captured_len fd _ hi.2.1,
    mem_auth_items pd offset captured_len fd _ hi.2.2, Iff.rfl, has_pad_iff pd _,
    sap_auth_pad_count pd _ _ h hn, rfl, h3, rfl, rfl, h4, ?_, rfl, rfl, ?_⟩
  · unfold field_label
    rw [h4]; rfl
  · intro v hv
    have h0 : ¬ (MCAST_SAP_AUTH_TYPE_PGP = v) := by unfold MCAST_SAP_AUTH_TYPE_PGP; omega
    have h1 : ¬ (MCAST_SAP_AUTH_TYPE_CMS = v) := by unfold MCAST_SAP_AUTH_TYPE_CMS; omega
    simp [mcast_sap_auth_type, match_strval, h0, h1]

theorem C13_auth_pad_and_type_witness :
    0 < rd buf_scenario_D 1 ∧
    (sap_auth buf_scenario_D (0 + 4 + (sap_locals buf_scenario_D 0).addr_len)
        (rd buf_scenario_D (0 + 1))).items.any Item.is_pad_count =
      (rd buf_scenario_D (0 + 4 + (sap_locals buf_scenario_D 0).addr_len)).testBit 4 :=
  ⟨by decide, (C13_auth_pad_and_type buf_scenario_D 0 20 ⟨true, true⟩ (by decide)).2.2.2.2.1⟩

set_option maxRecDepth 100000 in
theorem version_byte_facts : ∀ f, f < 256 →
    field_value Field.hf_sap_flags_v f = (f &&& 0xE0) >>> 5 ∧
    field_label Field.hf_sap_flags_v f =
      (if (f &&& 0xE0) >>> 5 = 0 then some "SAPv0"
       else if (f &&& 0xE0) >>> 5 = 1 then some "SAPv1 or later" else none) := by
  decide

theorem flags_v_item_mem (pd : List Nat) (offset cl : Nat) (fd : frame_data) :
    Item.uint Tree.sap_flags_tree Field.hf_sap_flags_v (offset : Int) 1 (rd pd offset) ∈
      (dissect_sap false pd offset cl fd true).items := by
  rw [dissect_sap_items]
  apply List.mem_append_left
  apply List.mem_append_left
  simp [sap_header]

/-- C14, as stated, fails: the flags byte `0x40` of `buf_version_2` holds the
version 2, a value from 1 to 7, and the table `mcast_sap_ver` the version field
is registered with has no entry for 2: the label is not "SAPv1 or later". -/
theorem C14_counterexample :
    (sap_locals buf_version_2 0).sap_version = 2 ∧
    Item.uint Tree.sap_flags_tree Field.hf_sap_flags_v 0 1 0x40 ∈
      (dissect_sap false buf_version_2 0 12 ⟨true, true⟩ true).items ∧
    hf_strings Field.hf_sap_flags_v = some mcast_sap_ver ∧
    field_value Field.hf_sap_flags_v 0x40 = 2 ∧
    match_strval 2 mcast_sap_ver = none ∧
    field_label Field.hf_sap_flags_v 0x40 = none ∧
    field_label Field.hf_sap_flags_v 0x40 ≠ some "SAPv1 or later" := by
  decide

/-- C14, amended: the version field `hf_sap_flags_v` is given the flags byte
and is registered with the table `mcast_sap_ver`, which has the two entries 0
and 1: the SAP version label is "SAPv0" when the 3-bit version is 0 and
"SAPv1 or later" when it is 1; the values from 2 to 7 have no entry and no
label. -/
theorem C14_version_label (pd : List Nat) (offset captured_len : Nat) (fd : frame_data) :
    Item.uint Tree.sap_flags_tree Field.hf_sap_flags_v (offset : Int) 1 (rd pd offset) ∈
      (dissect_sap false pd offset captured_len fd true).items ∧
    hf_strings Field.hf_sap_flags_v = some mcast_sap_ver ∧
    mcast_sap_ver = [(0, "SAPv0"), (1, "SAPv1 or later")] ∧
    field_value Field.hf_sap_flags_v (rd pd offset) = (sap_locals pd offset).sap_version ∧
    (sap_locals pd offset).sap_version ≤ 7 ∧
    field_label Field.hf_sap_flags_v (rd pd offset) =
      (if (sap_locals pd offset).sap_version = 0 then some "SAPv0"
       else if (sap_locals pd offset).sap_version = 1 then some "SAPv1 or later" else none) ∧
    (∀ v, 2 ≤ v → match_strval v mcast_sap_ver = none) := by
  obtain ⟨h1, h2⟩ := version_byte_facts _ (rd_lt pd offset)
  refine ⟨flags_v_item_mem pd offset captured_len fd, rfl, rfl, h1, ?_, h2, ?_⟩
  · rw [sap_version_eq]
    have := rd_lt pd offset
    omega
  · intro v hv
    have h0 : ¬ (MCAST_SAP_VER0 = v) := by unfold MCAST_SAP_VER0; omega
    have h1 : ¬ (MCAST_SAP_VER1PLUS = v) := by unfold MCAST_SAP_VER1PLUS; omega
    simp [mcast_sap_ver, match_strval, h0, h1]

/-- C15: for every buffer, the message identifier hash is reported at
`offset + 2` with length 2, and its value is the big-endian value of the two
bytes read there, `256 * pd[offset + 2] + pd[offset + 3]`, below `2^16`; for
scenario A of the specification it is `0x1234`. -/
theorem C15_msg_id_hash (pd : List Nat) (offset captured_len : Nat) (fd : frame_data) :
    Item.text Tree.sap_tree ((offset : Int) + 2) 2
        (Text.msg_id_hash (256 * rd pd (offset + 2) + rd pd (offset + 3))) ∈
      (dissect_sap false pd offset captured_len fd true).items ∧
    pntohs pd (offset + 2) = 256 * rd pd (offset + 2) + rd pd (offset + 3) ∧
    256 * rd pd (offset + 2) + rd pd (offset + 3) < 65536 ∧
    offset + 2 ∈ (dissect_sap false pd offset captured_len fd true).reads ∧
    offset + 3 ∈ (dissect_sap false pd offset captured_len fd true).reads ∧
    Item.text Tree.sap_tree 2 2 (Text.msg_id_hash 0x1234) ∈
      (dissect_sap false buf_scenario_A 0 12 fd true).items := by
  have h2 := rd_lt pd (offset + 2)
  have h3 := rd_lt pd (offset + 3)
  have hl : 0 < (sap_locals pd offset).addr_len := by
    rw [addr_len_eq]; split <;> omega
  refine ⟨?_, ?_, by omega, ?_, ?_, ?_⟩
  · rw [dissect_sap_items, show 256 * rd pd (offset + 2) + rd pd (offset + 3) =
      rd pd (offset + 2) * 256 + rd pd (offset + 3) by omega]
    apply List.mem_append_left
    apply List.mem_append_left
    simp [sap_header, pntohs]
    omega
  · unfold pntohs
    rw [show offset + 2 + 1 = offset + 3 from rfl]
    omega
  · rw [dissect_sap_reads]
    apply List.mem_append_left
    apply List.mem_append_left
    exact List.mem_append_right _ (sap_header_reads_mem pd offset captured_len _ _ (by omega)
      (by omega))
  · rw [dissect_sap_reads]
    apply List.mem_append_left
    apply List.mem_append_left
    exact List.mem_append_right _ (sap_header_reads_mem pd offset captured_len _ _ (by omega)
      (by omega))
  · rw [dissect_sap_items]
    apply List.mem_append_left
    apply List.mem_append_left
    decide

set_option maxRecDepth 100000 in
theorem reserved_byte_facts : ∀ f, f < 256 →
    (f ^^^ MCAST_SAP_BIT_R) &&& MCAST_SAP_BIT_A = f &&& MCAST_SAP_BIT_A ∧
    (f ^^^ MCAST_SAP_BIT_R) &&& MCAST_SAP_BIT_T = f &&& MCAST_SAP_BIT_T ∧
    (f ^^^ MCAST_SAP_BIT_R) &&& MCAST_SAP_BIT_E = f &&& MCAST_SAP_BIT_E ∧
    (f ^^^ MCAST_SAP_BIT_R) &&& MCAST_SAP_BIT_C = f &&& MCAST_SAP_BIT_C ∧
    ((f ^^^ MCAST_SAP_BIT_R) &&& MCAST_SAP_VERSION_MASK) >>> MCAST_SAP_VERSION_SHIFT =
      (f &&& MCAST_SAP_VERSION_MASK) >>> MCAST_SAP_VERSION_SHIFT ∧
    field_value Field.hf_sap_flags_v (f ^^^ MCAST_SAP_BIT_R) = field_value Field.hf_sap_flags_v f ∧
    field_value Field.hf_sap_flags_a (f ^^^ MCAST_SAP_BIT_R) = field_value Field.hf_sap_flags_a f ∧
    field_value Field.hf_sap_flags_t (f ^^^ MCAST_SAP_BIT_R) = field_value Field.hf_sap_flags_t f ∧
    field_value Field.hf_sap_flags_e (f ^^^ MCAST_SAP_BIT_R) = field_value Field.hf_sap_flags_e f ∧
    field_value Field.hf_sap_flags_c (f ^^^ MCAST_SAP_BIT_R) = field_value Field.hf_sap_flags_c f ∧
    field_value Field.hf_sap_flags_r (f ^^^ MCAST_SAP_BIT_R) + field_value Field.hf_sap_flags_r f = 1 := by
  decide

theorem sap_locals_reserved (pd pd' : List Nat) (offset : Nat)
    (h0 : rd pd' offset = rd pd offset ^^^ MCAST_SAP_BIT_R) :
    sap_locals pd' offset = sap_locals pd offset := by
  obtain ⟨ha, ht, he, hc, hv, _⟩ := reserved_byte_facts _ (rd_lt pd offset)
  unfold sap_locals
  simp only [h0, ha, ht, he, hc, hv]

theorem strlen_congr (pd pd' : List Nat) (c : Nat) (h : ∀ i, c ≤ i → rd pd' i = rd pd i) :
    strlen pd' c = strlen pd c := by
  obtain ⟨h1, h2⟩ := strlen_spec pd c
  apply strlen_eq pd' (strlen pd c) c
  · intro i hi
    rw [h _ (by omega)]
    exact h2 i hi
  · rw [h _ (by omega)]
    exact h1

theorem rd_bytes_congr (pd pd' : List Nat) (c n : Nat) (h : ∀ i, c ≤ i → rd pd' i = rd pd i) :
    rd_bytes pd' c n = rd_bytes pd c n := by
  unfold rd_bytes
  apply List.map_congr_left
  intro i hi
  rw [List.mem_range'_1] at hi
  exact h i hi.1

theorem strncasecmp_congr (pd pd' : List Nat) (n : Nat) : ∀ (c : Nat) (s2 : List Nat),
    (∀ i, c ≤ i → rd pd' i = rd pd i) →
    strncasecmp pd' c s2 n = strncasecmp pd c s2 n ∧
    strncasecmp_reads pd' c s2 n = strncasecmp_reads pd c s2 n := by
  induction n with
  | zero => intro c s2 _; exact ⟨rfl, rfl⟩
  | succ k ih =>
    intro c s2 h
    have hc := h c (Nat.le_refl c)
    obtain ⟨i1, i2⟩ := ih (c + 1) s2.tail (fun i hi => h i (by omega))
    simp only [strncasecmp, strncasecmp_reads, hc, i1, i2]
    exact ⟨trivial, trivial⟩

theorem sap_payload_congr (pd pd' : List Nat) (c cl : Nat) (l : Locals)
    (h : ∀ i, c ≤ i → rd pd' i = rd pd i) :
    sap_payload pd' c cl l = sap_payload pd c cl l := by
  obtain ⟨h1, h2⟩ := strncasecmp_congr pd pd' str_v_eq.length c str_v_eq h
  simp only [sap_payload, strlen_reads, h1, h2, strlen_congr pd pd' c h,
    rd_bytes_congr pd pd' c _ h, h (c + strlen pd c % 4294967296) (by omega)]

theorem sap_auth_congr (pd pd' : List Nat) (c n : Nat)
    (h : ∀ i, c ≤ i + 1 → rd pd' i = rd pd i) :
    sap_auth pd' c n = sap_auth pd c n := by
  simp only [sap_auth, h c (by omega), h (c + n * sizeof_guint32 % 4294967296 - 1) (by omega)]

theorem sap_header_reserved (pd pd' : List Nat) (offset cl : Nat) (l : Locals)
    (hrest : ∀ i, i ≠ offset → rd pd' i = rd pd i) :
    sap_header pd' offset cl l =
      (⟨offset + 4 + l.addr_len,
        [ Item.item Tree.tree Field.proto_sap offset (END_OF_FRAME cl offset),
          Item.uint Tree.sap_tree Field.hf_sap_flags offset 1 (rd pd' offset),
          Item.uint Tree.sap_flags_tree Field.hf_sap_flags_v offset 1 (rd pd' offset),
          Item.boolean Tree.sap_flags_tree Field.hf_sap_flags_a offset 1 (rd pd' offset),
          Item.boolean Tree.sap_flags_tree Field.hf_sap_flags_r offset 1 (rd pd' offset),
          Item.boolean Tree.sap_flags_tree Field.hf_sap_flags_t offset 1 (rd pd' offset),
          Item.boolean Tree.sap_flags_tree Field.hf_sap_flags_e offset 1 (rd pd' offset),
          Item.boolean Tree.sap_flags_tree Field.hf_sap_flags_c offset 1 (rd pd' offset) ] ++
        (sap_header pd offset cl l).1.items.drop 8,
        (sap_header pd offset cl l).1.reads⟩, (sap_header pd offset cl l).2) := by
  have e : rd_bytes pd' (offset + 4) l.addr_len = rd_bytes pd (offset + 4) l.addr_len :=
    rd_bytes_congr pd pd' _ _ (fun i hi => hrest i (by omega))
  simp only [sap_header, pntohs, hrest (offset + 1) (by omega), hrest (offset + 1 + 1) (by omega),
    hrest (offset + 1 + 1 + 1) (by omega), e, List.drop_succ_cons, List.drop_zero,
    List.cons_append, List.nil_append]


theorem sap_header_split (pd : List Nat) (offset cl : Nat) (l : Locals) :
    (sap_header pd offset cl l).1.items =
      [ Item.item Tree.tree Field.proto_sap offset (END_OF_FRAME cl offset),
        Item.uint Tree.sap_tree Field.hf_sap_flags offset 1 (rd pd offset),
        Item.uint Tree.sap_flags_tree Field.hf_sap_flags_v offset 1 (rd pd offset),
        Item.boolean Tree.sap_flags_tree Field.hf_sap_flags_a offset 1 (rd pd offset),
        Item.boolean Tree.sap_flags_tree Field.hf_sap_flags_r offset 1 (rd pd offset),
        Item.boolean Tree.sap_flags_tree Field.hf_sap_flags_t offset 1 (rd pd offset),
        Item.boolean Tree.sap_flags_tree Field.hf_sap_flags_e offset 1 (rd pd offset),
        Item.boolean Tree.sap_flags_tree Field.hf_sap_flags_c offset 1 (rd pd offset) ] ++
      (sap_header pd offset cl l).1.items.drop 8 := by
  simp [sap_header]

/-- C16: the reserved bit (`0x08`) of the flags byte is shown but never tested.
For two memories that differ only in bit 3 of the byte at `offset`,
`dissect_sap` derives the same locals (version, address family, message kind,
encrypted, compressed, `addr_len`), fills the columns alike, reads the same
indices and hands the same offset to the SDP dissector; the items are the same
but for the flags byte given to the first seven flags items, in which the
version, address type, message type, encryption and compression fields show the
same value and only the reserved field differs; neither run stops on account of
the bit. -/
theorem C16_reserved_bit_not_enforced (pd pd' : List Nat) (offset captured_len : Nat)
    (fd : frame_data)
    (h0 : rd pd' offset = rd pd offset ^^^ MCAST_SAP_BIT_R)
    (hrest : ∀ i, i ≠ offset → rd pd' i = rd pd i) :
    sap_locals pd' offset = sap_locals pd offset ∧
    (dissect_sap false pd' offset captured_len fd true).data =
      (dissect_sap false pd offset captured_len fd true).data ∧
    (dissect_sap false pd' offset captured_len fd true).col_protocol =
      (dissect_sap false pd offset captured_len fd true).col_protocol ∧
    (dissect_sap false pd' offset captured_len fd true).col_info =
      (dissect_sap false pd offset captured_len fd true).col_info ∧
    (dissect_sap false pd' offset captured_len fd true).reads =
      (dissect_sap false pd offset captured_len fd true).reads ∧
    (dissect_sap false pd' offset captured_len fd true).sdp =
      (dissect_sap false pd offset captured_len fd true).sdp ∧
    (∃ tail : List Item,
      (dissect_sap false pd offset captured_len fd true).items =
        [ Item.item Tree.tree Field.proto_sap offset (END_OF_FRAME captured_len offset),
          Item.uint Tree.sap_tree Field.hf_sap_flags offset 1 (rd pd offset),
          Item.uint Tree.sap_flags_tree Field.hf_sap_flags_v offset 1 (rd pd offset),
          Item.boolean Tree.sap_flags_tree Field.hf_sap_flags_a offset 1 (rd pd offset),
          Item.boolean Tree.sap_flags_tree Field.hf_sap_flags_r offset 1 (rd pd offset),
          Item.boolean Tree.sap_flags_tree Field.hf_sap_flags_t offset 1 (rd pd offset),
          Item.boolean Tree.sap_flags_tree Field.hf_sap_flags_e offset 1 (rd pd offset),
          Item.boolean Tree.sap_flags_tree Field.hf_sap_flags_c offset 1 (rd pd offset) ] ++ tail ∧
      (dissect_sap false pd' offset captured_len fd true).items =
        [ Item.item Tree.tree Field.proto_sap offset (END_OF_FRAME captured_len offset),
          Item.uint Tree.sap_tree Field.hf_sap_flags offset 1 (rd pd' offset),
          Item.uint Tree.sap_flags_tree Field.hf_sap_flags_v offset 1 (rd pd' offset),
          Item.boolean Tree.sap_flags_tree Field.hf_sap_flags_a offset 1 (rd pd' offset),
          Item.boolean Tree.sap_flags_tree Field.hf_sap_flags_r offset 1 (rd pd' offset),
          Item.boolean Tree.sap_flags_tree Field.hf_sap_flags_t offset 1 (rd pd' offset),
          Item.boolean Tree.sap_flags_tree Field.hf_sap_flags_e offset 1 (rd pd' offset),
          Item.boolean Tree.sap_flags_tree Field.hf_sap_flags_c offset 1 (rd pd' offset) ] ++ tail) ∧
    field_value Field.hf_sap_flags_v (rd pd' offset) =
      field_value Field.hf_sap_flags_v (rd pd offset) ∧
    field_value Field.hf_sap_flags_a (rd pd' offset) =
      field_value Field.hf_sap_flags_a (rd pd offset) ∧
    field_value Field.hf_sap_flags_t (rd pd' offset) =
      field_value Field.hf_sap_flags_t (rd pd offset) ∧
    field_value Field.hf_sap_flags_e (rd pd' offset) =
      field_value Field.hf_sap_flags_e (rd pd offset) ∧
    field_value Field.hf_sap_flags_c (rd pd' offset) =
      field_value Field.hf_sap_flags_c (rd pd offset) ∧
    field_value Field.hf_sap_flags_r (rd pd' offset) ≠
      field_value Field.hf_sap_flags_r (rd pd offset) := by
  have hl := sap_locals_reserved pd pd' offset h0
  have h1 : rd pd' (offset + 1) = rd pd (offset + 1) := hrest _ (by omega)
  have ha : ∀ c, offset + 2 ≤ c → ∀ n, sap_auth pd' c n = sap_auth pd c n :=
    fun c hc n => sap_auth_congr pd pd' c n (fun i hi => hrest i (by omega))
  have hp : ∀ c l, offset + 1 ≤ c → sap_payload pd' c captured_len l =
      sap_payload pd c captured_len l :=
    fun c l hc => sap_payload_congr pd pd' c captured_len l (fun i hi => hrest i (by omega))
  have hh := sap_header_reserved pd pd' offset captured_len (sap_locals pd offset) hrest
  obtain ⟨_, _, _, _, _, fv, fa, ft, fe, fc, fr⟩ := reserved_byte_facts _ (rd_lt pd offset)
  refine ⟨hl, by simp [dissect_sap], by simp [dissect_sap], ?_, ?_, ?_, ?_, ?_, ?_, ?_, ?_, ?_, ?_⟩
  · simp [dissect_sap, hl]
  · rw [dissect_sap_reads, dissect_sap_reads, hl, h1, ha _ (by omega), hp _ _ (by omega), hh]
  · rw [dissect_sap_sdp, dissect_sap_sdp, hl, h1, hp _ _ (by omega)]
  · refine ⟨(sap_header pd offset captured_len (sap_locals pd offset)).1.items.drop 8 ++
      (sap_auth pd (offset + 4 + (sap_locals pd offset).addr_len) (rd pd (offset + 1))).items ++
      (sap_payload pd (offset + 4 + (sap_locals pd offset).addr_len + 4 * rd pd (offset + 1))
        captured_len (sap_locals pd offset)).1.items, ?_, ?_⟩
    · rw [dissect_sap_items]
      conv_lhs => rw [sap_header_split]
      simp only [List.append_assoc]
    · rw [dissect_sap_items, hl, h1, ha _ (by omega), hp _ _ (by omega), hh]
      simp only [List.append_assoc]
  · rw [h0]; exact fv
  · rw [h0]; exact fa
  · rw [h0]; exact ft
  · rw [h0]; exact fe
  · rw [h0]; exact fc
  · rw [h0]; omega

theorem C16_reserved_bit_not_enforced_witness :
    rd buf_scenario_A_reserved 0 = rd buf_scenario_A 0 ^^^ MCAST_SAP_BIT_R ∧
    (dissect_sap false buf_scenario_A_reserved 0 12 ⟨true, true⟩ true).sdp =
      (dissect_sap false buf_scenario_A 0 12 ⟨true, true⟩ true).sdp :=
  ⟨by decide,
    (C16_reserved_bit_not_enforced buf_scenario_A buf_scenario_A_reserved 0 12 ⟨true, true⟩
      (by decide)
      (by
        intro i hi
        cases i with
        | zero => exact absurd rfl hi
        | succ k => rfl)).2.2.2.2.2.1⟩

set_option maxRecDepth 100000 in
theorem rebuild_byte_facts : ∀ f, f < 256 →
    (((f &&& MCAST_SAP_VERSION_MASK) >>> MCAST_SAP_VERSION_SHIFT) <<< 5) |||
      (f &&& MCAST_SAP_BIT_A) ||| (f &&& MCAST_SAP_BIT_R) ||| (f &&& MCAST_SAP_BIT_T) |||
      (f &&& MCAST_SAP_BIT_E) ||| (f &&& MCAST_SAP_BIT_C) = f := by
  decide

theorem flags_rebuild (pd : List Nat) (offset : Nat) :
    ((sap_locals pd offset).sap_version <<< 5) ||| (sap_locals pd offset).is_ipv6 |||
      (rd pd offset &&& MCAST_SAP_BIT_R) ||| (sap_locals pd offset).is_del |||
      (sap_locals pd offset).is_enc ||| (sap_locals pd offset).is_comp = rd pd offset :=
  rebuild_byte_facts _ (rd_lt pd offset)

set_option maxRecDepth 100000 in
theorem flags_build_decode : ∀ v, v < 8 → ∀ a r t e c : Bool,
    (sap_locals [(v <<< 5) ||| (if a then 0x10 else 0) ||| (if r then 0x08 else 0) |||
        (if t then 0x04 else 0) ||| (if e then 0x02 else 0) ||| (if c then 0x01 else 0)] 0) =
      ⟨if a then 0x10 else 0, if t then 0x04 else 0, if e then 0x02 else 0,
        if c then 0x01 else 0, v, if a then 16 else 4⟩ ∧
    rd [(v <<< 5) ||| (if a then 0x10 else 0) ||| (if r then 0x08 else 0) |||
        (if t then 0x04 else 0) ||| (if e then 0x02 else 0) ||| (if c then 0x01 else 0)] 0
      &&& MCAST_SAP_BIT_R = (if r then 0x08 else 0) := by
  decide

/-- C17: the six masks of the flags byte, `0xE0`, `0x10`, `0x08`, `0x04`,
`0x02` and `0x01`, with which the six flags fields are registered, are pairwise
disjoint and cover all 8 bits.  For every flags byte `f`, rebuilding
`(version << 5) | A | R | T | E | C` from the decoded fields gives `f` back;
decoding the byte built from any version from 0 to 7 and any five flags gives
those values back; and two flags bytes with the same decoded fields are
equal. -/
theorem C17_flags_round_trip (pd : List Nat) (offset : Nat) :
    [hf_bitmask Field.hf_sap_flags_v, hf_bitmask Field.hf_sap_flags_a,
      hf_bitmask Field.hf_sap_flags_r, hf_bitmask Field.hf_sap_flags_t,
      hf_bitmask Field.hf_sap_flags_e, hf_bitmask Field.hf_sap_flags_c] =
      [0xE0, 0x10, 0x08, 0x04, 0x02, 0x01] ∧
    List.Pairwise (fun a b => a &&& b = 0)
      [MCAST_SAP_VERSION_MASK, MCAST_SAP_BIT_A, MCAST_SAP_BIT_R, MCAST_SAP_BIT_T,
        MCAST_SAP_BIT_E, MCAST_SAP_BIT_C] ∧
    MCAST_SAP_VERSION_MASK ||| MCAST_SAP_BIT_A ||| MCAST_SAP_BIT_R ||| MCAST_SAP_BIT_T |||
      MCAST_SAP_BIT_E ||| MCAST_SAP_BIT_C = 0xFF ∧
    ((sap_locals pd offset).sap_version <<< 5) ||| (sap_locals pd offset).is_ipv6 |||
      (rd pd offset &&& MCAST_SAP_BIT_R) ||| (sap_locals pd offset).is_del |||
      (sap_locals pd offset).is_enc ||| (sap_locals pd offset).is_comp = rd pd offset ∧
    (∀ v, v < 8 → ∀ a r t e c : Bool,
      (sap_locals [(v <<< 5) ||| (if a then 0x10 else 0) ||| (if r then 0x08 else 0) |||
          (if t then 0x04 else 0) ||| (if e then 0x02 else 0) ||| (if c then 0x01 else 0)] 0) =
        ⟨if a then 0x10 else 0, if t then 0x04 else 0, if e then 0x02 else 0,
          if c then 0x01 else 0, v, if a then 16 else 4⟩ ∧
      rd [(v <<< 5) ||| (if a then 0x10 else 0) ||| (if r then 0x08 else 0) |||
          (if t then 0x04 else 0) ||| (if e then 0x02 else 0) ||| (if c then 0x01 else 0)] 0
        &&& MCAST_SAP_BIT_R = (if r then 0x08 else 0)) ∧
    (∀ (pd' : List Nat) (offset' : Nat),
      sap_locals pd' offset' = sap_locals pd offset →
      rd pd' offset' &&& MCAST_SAP_BIT_R = rd pd offset &&& MCAST_SAP_BIT_R →
      rd pd' offset' = rd pd offset) := by
  refine ⟨by decide, by decide, by decide, flags_rebuild pd offset, flags_build_decode, ?_⟩
  intro pd' offset' hl hr
  rw [← flags_rebuild pd offset, ← flags_rebuild pd' offset', hl, hr]

/-- C18: for every authentication length byte `n` (0 to 255), `n * 4` needs no
reduction modulo `2^32`: `data_len = 4 * n` is a multiple of 4 and at most
1020; the authentication step leaves the cursor at
`offset + 4 + addr_len + 4 * n` for every buffer, which is where the payload
step runs. -/
theorem C18_data_len_and_cursor (pd : List Nat) (offset captured_len : Nat) (fd : frame_data) :
    rd pd (offset + 1) ≤ 255 ∧
    rd pd (offset + 1) * sizeof_guint32 < 4294967296 ∧
    (rd pd (offset + 1) * sizeof_guint32) % 4294967296 = 4 * rd pd (offset + 1) ∧
    (4 * rd pd (offset + 1)) % 4 = 0 ∧
    4 * rd pd (offset + 1) ≤ 1020 ∧
    (sap_header pd offset captured_len (sap_locals pd offset)).2 = rd pd (offset + 1) ∧
    (sap_auth pd (offset + 4 + (sap_locals pd offset).addr_len) (rd pd (offset + 1))).offset =
      offset + 4 + (sap_locals pd offset).addr_len + 4 * rd pd (offset + 1) ∧
    (dissect_sap false pd offset captured_len fd true).items =
      (sap_header pd offset captured_len (sap_locals pd offset)).1.items ++
      (sap_auth pd (offset + 4 + (sap_locals pd offset).addr_len) (rd pd (offset + 1))).items ++
      (sap_payload pd (offset + 4 + (sap_locals pd offset).addr_len + 4 * rd pd (offset + 1))
        captured_len (sap_locals pd offset)).1.items ∧
    (dissect_sap false pd offset captured_len fd true).sdp =
      (sap_payload pd (offset + 4 + (sap_locals pd offset).addr_len + 4 * rd pd (offset + 1))
        captured_len (sap_locals pd offset)).2 ∧
    (sap_payload pd (offset + 4 + (sap_locals pd offset).addr_len + 4 * rd pd (offset + 1))
        captured_len (sap_locals pd offset)).1.items.all
      (fun it => decide (it.start = ((offset + 4 + (sap_locals pd offset).addr_len +
        4 * rd pd (offset + 1) : Nat) : Int))) = true := by
  have hn := rd_lt pd (offset + 1)
  refine ⟨by omega, by unfold sizeof_guint32; omega, auth_data_len_eq _ hn, by omega, by omega,
    sap_header_auth_len _ _ _ _, sap_auth_offset _ _ _, dissect_sap_items _ _ _ _,
    dissect_sap_sdp _ _ _ _, ?_⟩
  by_cases hm : (sap_locals pd offset).is_enc ≠ 0 ∨ (sap_locals pd offset).is_comp ≠ 0
  · rw [sap_payload_mangled pd _ captured_len _ hm]
    simp [Item.start]
  · by_cases hv : strncasecmp pd (offset + 4 + (sap_locals pd offset).addr_len +
        4 * rd pd (offset + 1)) str_v_eq str_v_eq.length = 0
    · rw [sap_payload_sdp pd _ captured_len _ hm hv]
      rfl
    · rw [sap_payload_type pd _ captured_len _ hm hv]
      simp [Item.start]

theorem sap_header_no_rest (pd : List Nat) (offset cl : Nat) (l : Locals) :
    (sap_header pd offset cl l).1.items.any Item.is_rest = false := by
  simp [sap_header, Item.is_rest]

theorem sap_auth_no_rest (pd : List Nat) (c n : Nat) :
    (sap_auth pd c n).items.any Item.is_rest = false := by
  unfold sap_auth
  by_cases h0 : n > 0
  · by_cases hp : rd pd c &&& MCAST_SAP_AUTH_BIT_P ≠ 0
    · simp only [if_pos h0, if_pos hp]
      simp [Item.is_rest]
    · simp only [if_pos h0, if_neg hp]
      simp [Item.is_rest]
  · simp only [if_neg h0]
    rfl

theorem sap_payload_plain (pd : List Nat) (c cl : Nat) (l : Locals)
    (h : ¬ (l.is_enc ≠ 0 ∨ l.is_comp ≠ 0)) :
    (sap_payload pd c cl l).1.items.any Item.is_rest = false ∧
    (sap_payload pd c cl l).2.isSome = true ∧
    c ∈ (sap_payload pd c cl l).1.reads := by
  have hr : c ∈ strncasecmp_reads pd c str_v_eq str_v_eq.length := by
    rw [strncasecmp_reads_v_eq]; split <;> simp
  by_cases hv : strncasecmp pd c str_v_eq str_v_eq.length = 0
  · rw [sap_payload_sdp pd c cl l h hv]
    exact ⟨rfl, rfl, hr⟩
  · rw [sap_payload_type pd c cl l h hv]
    refine ⟨by simp [Item.is_rest], rfl, ?_⟩
    apply List.mem_append_left
    apply List.mem_append_left
    exact List.mem_append_left _ hr

theorem rest_item_mem (pd : List Nat) (offset cl : Nat) (fd : frame_data)
    (h : (rd pd offset).testBit 1 = true ∨ (rd pd offset).testBit 0 = true) :
    Item.text Tree.sap_tree
        ((offset + 4 + (sap_locals pd offset).addr_len + 4 * rd pd (offset + 1) : Nat) : Int)
        (END_OF_FRAME cl (offset + 4 + (sap_locals pd offset).addr_len + 4 * rd pd (offset + 1)))
        (Text.rest
          (if (rd pd offset).testBit 1 = true ∧ (rd pd offset).testBit 0 = true then
            "compressed and encrypted"
           else if (rd pd offset).testBit 1 = true then "encrypted" else "compressed")) ∈
      (dissect_sap false pd offset cl fd true).items ∧
    (dissect_sap false pd offset cl fd true).sdp = none ∧
    (sap_payload pd (offset + 4 + (sap_locals pd offset).addr_len + 4 * rd pd (offset + 1)) cl
      (sap_locals pd offset)).1.reads = [] := by
  have hl : (sap_locals pd offset).is_enc ≠ 0 ∨ (sap_locals pd offset).is_comp ≠ 0 :=
    h.imp (is_enc_iff pd offset).mpr (is_comp_iff pd offset).mpr
  refine ⟨?_, ?_, ?_⟩
  · rw [dissect_sap_items, sap_payload_mangled pd _ cl _ hl, mangle_eq]
    exact List.mem_append_right _ (List.mem_singleton.mpr rfl)
  · rw [dissect_sap_sdp, sap_payload_mangled pd _ cl _ hl]
  · rw [sap_payload_mangled pd _ cl _ hl]

/-- C19: the payload status is decided by the encrypted bit (bit 1) and the
compressed bit (bit 0) of the flags byte alone, with four outcomes: both set,
the rest of the packet is reported as "compressed and encrypted"; only bit 1,
as "encrypted"; only bit 0, as "compressed"; in these three cases nothing is
read after the authentication step and the SDP dissector is not called.  With
neither bit set, and only then, no such item is added, the payload type test
reads the byte at the cursor and the SDP dissector is called.  The three texts
are distinct. -/
theorem C19_payload_status (pd : List Nat) (offset captured_len : Nat) (fd : frame_data) :
    (if (rd pd offset).testBit 1 = true ∧ (rd pd offset).testBit 0 = true then
      Item.text Tree.sap_tree
          ((offset + 4 + (sap_locals pd offset).addr_len + 4 * rd pd (offset + 1) : Nat) : Int)
          (END_OF_FRAME captured_len
            (offset + 4 + (sap_locals pd offset).addr_len + 4 * rd pd (offset + 1)))
          (Text.rest "compressed and encrypted") ∈
        (dissect_sap false pd offset captured_len fd true).items ∧
      (dissect_sap false pd offset captured_len fd true).sdp = none ∧
      (sap_payload pd (offset + 4 + (sap_locals pd offset).addr_len + 4 * rd pd (offset + 1))
        captured_len (sap_locals pd offset)).1.reads = []
     else if (rd pd offset).testBit 1 = true then
      Item.text Tree.sap_tree
          ((offset + 4 + (sap_locals pd offset).addr_len + 4 * rd pd (offset + 1) : Nat) : Int)
          (END_OF_FRAME captured_len
            (offset + 4 + (sap_locals pd offset).addr_len + 4 * rd pd (offset + 1)))
          (Text.rest "encrypted") ∈
        (dissect_sap false pd offset captured_len fd true).items ∧
      (dissect_sap false pd offset captured_len fd true).sdp = none ∧
      (sap_payload pd (offset + 4 + (sap_locals pd offset).addr_len + 4 * rd pd (offset + 1))
        captured_len (sap_locals pd offset)).1.reads = []
     else if (rd pd offset).testBit 0 = true then
      Item.text Tree.sap_tree
          ((offset + 4 + (sap_locals pd offset).addr_len + 4 * rd pd (offset + 1) : Nat) : Int)
          (END_OF_FRAME captured_len
            (offset + 4 + (sap_locals pd offset).addr_len + 4 * rd pd (offset + 1)))
          (Text.rest "compressed") ∈
        (dissect_sap false pd offset captured_len fd true).items ∧
      (dissect_sap false pd offset captured_len fd true).sdp = none ∧
      (sap_payload pd (offset + 4 + (sap_locals pd offset).addr_len + 4 * rd pd (offset + 1))
        captured_len (sap_locals pd offset)).1.reads = []
     else
      (dissect_sap false pd offset captured_len fd true).items.any Item.is_rest = false ∧
      (dissect_sap false pd offset captured_len fd true).sdp.isSome = true ∧
      offset + 4 + (sap_locals pd offset).addr_len + 4 * rd pd (offset + 1) ∈
        (sap_payload pd (offset + 4 + (sap_locals pd offset).addr_len + 4 * rd pd (offset + 1))
          captured_len (sap_locals pd offset)).1.reads) ∧
    ((dissect_sap false pd offset captured_len fd true).sdp.isSome = true ↔
      (rd pd offset).testBit 1 = false ∧ (rd pd offset).testBit 0 = false) ∧
    "compressed and encrypted" ≠ "encrypted" ∧ "compressed and encrypted" ≠ "compressed" ∧
    "encrypted" ≠ "compressed" := by
  refine ⟨?_, ?_, by decide, by decide, by decide⟩
  · by_cases he : (rd pd offset).testBit 1 = true
    · by_cases hc : (rd pd offset).testBit 0 = true
      · have := rest_item_mem pd offset captured_len fd (Or.inl he)
        rw [if_pos ⟨he, hc⟩] at this
        rw [if_pos ⟨he, hc⟩]
        exact this
      · have := rest_item_mem pd offset captured_len fd (Or.inl he)
        rw [if_neg (fun x => hc x.2), if_pos he] at this
        rw [if_neg (fun x => hc x.2), if_pos he]
        exact this
    · by_cases hc : (rd pd offset).testBit 0 = true
      · have := rest_item_mem pd offset captured_len fd (Or.inr hc)
        rw [if_neg (fun x => he x.1), if_neg he] at this
        rw [if_neg (fun x => he x.1), if_neg he, if_pos hc]
        exact this
      · have hl : ¬ ((sap_locals pd offset).is_enc ≠ 0 ∨ (sap_locals pd offset).is_comp ≠ 0) := by
          rw [is_enc_iff, is_comp_iff]; exact fun x => x.elim he hc
        obtain ⟨p1, p2, p3⟩ := sap_payload_plain pd
          (offset + 4 + (sap_locals pd offset).addr_len + 4 * rd pd (offset + 1)) captured_len _ hl
        rw [if_neg (fun x => he x.1), if_neg he, if_neg hc]
        refine ⟨?_, ?_, p3⟩
        · rw [dissect_sap_items]
          simp only [List.any_append, sap_header_no_rest, sap_auth_no_rest, p1]
          rfl
        · rw [dissect_sap_sdp]; exact p2
  · rw [dissect_sap_sdp, Option.isSome_iff_ne_none, ne_eq, sap_payload_sdp_none, is_enc_iff,
      is_comp_iff]
    simp

/-- C20: for every padded authentication subheader (authentication length
`n > 0`, bit 4 of the flags byte `pd[b]` set) whose pad count
`p = pd[b + 4 * n - 1]` is at most `data_len - 1 = 4 * n - 1`, with the block
start `b = offset + 4 + addr_len` and the block end within the range of a C
`int`, the reported regions tile the block of `4 * n` bytes: the flags byte at
`[b, b + 1)`, the body at `[b + 1, b + 4 * n - p)` and the padding at
`[b + 4 * n - p, b + 4 * n)` follow one another without gap or overlap, their
lengths add up to `4 * n`, the padding ends where the block ends, and when
`p >= 1` the pad count byte at `b + 4 * n - 1` is the last byte of the
padding. -/
theorem C20_auth_regions_tile (pd : List Nat) (offset captured_len : Nat) (fd : frame_data)
    (b n p : Nat)
    (hb : b = offset + 4 + (sap_locals pd offset).addr_len)
    (hn : n = rd pd (offset + 1)) (hp : p = rd pd (b + 4 * n - 1))
    (h0 : 0 < n) (hpad : (rd pd b).testBit 4 = true) (hle : p ≤ 4 * n - 1)
    (hint : b + 4 * n < 2147483648) :
    Item.item Tree.sap_tree Field.hf_auth_data (b : Int) ((4 * n : Nat) : Int) ∈
      (dissect_sap false pd offset captured_len fd true).items ∧
    Item.uint Tree.sa_tree Field.hf_auth_flags (b : Int) 1 (rd pd b) ∈
      (dissect_sap false pd offset captured_len fd true).items ∧
    Item.text Tree.sa_tree ((b : Int) + 1) ((4 * n : Int) - (p : Int) - 1)
        (Text.auth_subheader (4 * n - 1)) ∈
      (dissect_sap false pd offset captured_len fd true).items ∧
    Item.text Tree.sa_tree ((b : Int) + 4 * n - p) (p : Int) (Text.auth_padding p) ∈
      (dissect_sap false pd offset captured_len fd true).items ∧
    Item.text Tree.sa_tree ((b : Int) + 4 * n - 1) 1 (Text.auth_pad_count p) ∈
      (dissect_sap false pd offset captured_len fd true).items ∧
    (0 : Int) ≤ (4 * n : Int) - (p : Int) - 1 ∧
    ((b : Int) + 1) + ((4 * n : Int) - (p : Int) - 1) = (b : Int) + 4 * n - p ∧
    ((b : Int) + 4 * n - p) + (p : Int) = (b : Int) + 4 * n ∧
    (1 : Int) + ((4 * n : Int) - (p : Int) - 1) + (p : Int) = 4 * n ∧
    (if 1 ≤ p then
      (b : Int) + 4 * n - p ≤ (b : Int) + 4 * n - 1 ∧
      ((b : Int) + 4 * n - 1) + 1 = ((b : Int) + 4 * n - p) + (p : Int)
     else (b : Int) + 4 * n - p = (b : Int) + 4 * n) := by
  have hn' := rd_lt pd (offset + 1)
  have hau := sap_auth_padded pd b n h0 (by omega) hpad
  rw [← hp] at hau
  have e1 : auth_body_len (4 * n) p = (4 * n : Int) - (p : Int) - 1 := by
    unfold auth_body_len; omega
  have e2 : auth_pad_start b (4 * n) p = (b : Int) + 4 * n - p := by
    unfold auth_pad_start; omega
  have e3 : ((b : Int) + ((4 * n : Nat) : Int) - 1) % 4294967296 = (b : Int) + 4 * n - 1 := by
    omega
  rw [e1, e2, e3] at hau
  have hm : ∀ it, it ∈ (sap_auth pd b n).items →
      it ∈ (dissect_sap false pd offset captured_len fd true).items := by
    intro it hit
    rw [hb, hn] at hit
    exact mem_auth_items pd offset captured_len fd it hit
  refine ⟨hm _ ?_, hm _ ?_, hm _ ?_, hm _ ?_, hm _ ?_, by omega, by omega, by omega, by omega, ?_⟩
  · rw [hau]; simp
  · rw [hau]; simp
  · rw [hau]; simp
  · rw [hau]; simp
  · rw [hau]; simp
  · split <;> omega

theorem C20_auth_regions_tile_witness :
    (8 = 0 + 4 + (sap_locals buf_scenario_D 0).addr_len ∧ 2 = rd buf_scenario_D (0 + 1) ∧
      3 = rd buf_scenario_D (8 + 4 * 2 - 1) ∧ (rd buf_scenario_D 8).testBit 4 = true ∧
      3 ≤ 4 * 2 - 1) ∧
    Item.text Tree.sa_tree ((8 : Nat) + 1 : Int) (4 * (2 : Nat) - (3 : Nat) - 1 : Int)
        (Text.auth_subheader (4 * 2 - 1)) ∈
      (dissect_sap false buf_scenario_D 0 20 ⟨true, true⟩ true).items ∧
    Item.text Tree.sa_tree ((8 : Nat) + 4 * (2 : Nat) - (3 : Nat) : Int) ((3 : Nat) : Int)
        (Text.auth_padding 3) ∈
      (dissect_sap false buf_scenario_D 0 20 ⟨true, true⟩ true).items :=
  ⟨by decide,
    (C20_auth_regions_tile buf_scenario_D 0 20 ⟨true, true⟩ 8 2 3 (by decide) (by decide)
      (by decide) (by decide) (by decide) (by decide) (by decide)).2.2.1,
    (C20_auth_regions_tile buf_scenario_D 0 20 ⟨true, true⟩ 8 2 3 (by decide) (by decide)
      (by decide) (by decide) (by decide) (by decide) (by decide)).2.2.2.1⟩

end Sap
